import Mathlib

/-! HSAResourceManager: a shallow embedding

Verification development for the sample resource-manager layer
(`samples/Common/HSAResourceManager.{h,cpp}`).

Conventions of the embedding.

* Pointers and handles are natural numbers; `0` is `nullptr` / the null handle.
* `uint32_t`, `uint64_t` and `std::size_t` (64 bits on the target) values are
  natural numbers; every arithmetic operation of the source that can wrap is
  written with an explicit `% 2 ^ 32` or `% 2 ^ 64`.
* Memory is a function from addresses to bytes; the packet array of a queue is
  a function from slots to packets. Where two reference parameters can name
  the same packet, packets are objects in a function from addresses to packets.
* Every call into the vendor runtime is recorded, in program order, in the
  `trace` of the `World`; what the runtime answers is an argument (a reply) of
  the embedded function that makes the call.
* The `void*` data of the two runtime callbacks is the object it points to,
  or `none` for `nullptr`.
-/

namespace AMDT

/-! ## Vendor types used by the sample layer -/

/-- The status code `HSA_STATUS_SUCCESS` of the vendor header. -/
def HSA_STATUS_SUCCESS : Nat := 0

/-- Function `HsaCheckStatus`: true exactly for `HSA_STATUS_SUCCESS`. -/
def HsaCheckStatus (s : Nat) : Bool :=
  if HSA_STATUS_SUCCESS = s then true else false

/-- The AQL kernel dispatch packet `hsa_kernel_dispatch_packet_t`
(field list of the vendor header; `completion_signal` is the signal handle). -/
structure hsa_kernel_dispatch_packet_t where
  header : Nat
  setup : Nat
  workgroup_size_x : Nat
  workgroup_size_y : Nat
  workgroup_size_z : Nat
  reserved0 : Nat
  grid_size_x : Nat
  grid_size_y : Nat
  grid_size_z : Nat
  private_segment_size : Nat
  group_segment_size : Nat
  kernel_object : Nat
  kernarg_address : Nat
  reserved2 : Nat
  completion_signal : Nat
  deriving DecidableEq

/-- The runtime queue object `hsa_queue_t`, together with the two things the
sample layer reaches through it: the packet array that `base_address` points
to (slot to packet) and the write index that the runtime keeps for the queue. -/
structure hsa_queue_t where
  base_address : Nat → hsa_kernel_dispatch_packet_t
  doorbell_signal : Nat
  size : Nat
  write_index : Nat

/-- Conversion `static_cast<hsa_signal_value_t>(index)` of a `uint64_t`
(the signal value type is `int64_t` in the large machine model). -/
def static_cast_hsa_signal_value_t (index : Nat) : Int :=
  if index % 2 ^ 64 < 2 ^ 63 then ((index % 2 ^ 64 : Nat) : Int)
  else ((index % 2 ^ 64 : Nat) : Int) - 2 ^ 64

/-- Conversion `static_cast<int>(v)` of a `std::size_t` (32-bit `int`). -/
def static_cast_int (v : Nat) : Int :=
  if v % 2 ^ 32 < 2 ^ 31 then ((v % 2 ^ 32 : Nat) : Int)
  else ((v % 2 ^ 32 : Nat) : Int) - 2 ^ 32

/-- Events of an execution, in program order: the calls into the runtime and
the store of a packet into a queue slot. -/
inductive Event where
  | hsa_memory_allocate (region : Nat) (size : Nat)
  | hsa_memory_free (ptr : Nat)
  | hsa_signal_create (initial_value : Int) (num_consumers : Nat)
  | hsa_queue_load_write_index_relaxed (queue : Nat)
  | queue_packet_store (queue : Nat) (slot : Nat) (packet : hsa_kernel_dispatch_packet_t)
  | hsa_queue_store_write_index_relaxed (queue : Nat) (value : Nat)
  | hsa_signal_store_release (signal : Nat) (value : Int)
  | hsa_signal_wait_acquire (signal : Nat) (condition : Nat) (compare_value : Int)
      (timeout_hint : Nat) (wait_state_hint : Nat)
  | hsa_amd_profiling_get_dispatch_time (agent : Nat) (signal : Nat)
  | hsa_signal_destroy (signal : Nat)
  | hsa_executable_destroy (executable : Nat)
  | hsa_code_object_destroy (code_object : Nat)
  | hsa_queue_destroy (queue : Nat)
  | hsa_init
  | hsa_shut_down
  | hsa_system_extension_supported (extension : Nat) (major : Nat) (minor : Nat)
  | hsa_system_get_extension_table (extension : Nat) (major : Nat) (minor : Nat)
  | hsa_iterate_agents
  | hsa_agent_get_info (agent : Nat) (info : Nat)
  | hsa_agent_iterate_regions (agent : Nat)
  | hsa_region_get_info (region : Nat) (info : Nat)
  | hsa_system_get_info (info : Nat)
  deriving DecidableEq

/-- Everything outside the manager object: byte memory, the queue objects by
address, the events so far, and the value of each signal as a wait of the
program last observed it (the stores the program makes are events). -/
structure World where
  mem : Nat → Nat
  queues : Nat → hsa_queue_t
  trace : List Event
  signals : Nat → Int

/-- Function `memset(p, c, n)`: each of the `n` bytes gets `c` converted to
`unsigned char`. -/
def memset (mem : Nat → Nat) (p : Nat) (c : Int) (n : Nat) : Nat → Nat :=
  fun a => if p ≤ a ∧ a < p + n then (c % 256).toNat else mem a

/-- Function `memcpy(dst, src, n)` for ranges that do not overlap. -/
def memcpy (mem : Nat → Nat) (dst : Nat) (src : Nat) (n : Nat) : Nat → Nat :=
  fun a => if dst ≤ a ∧ a < dst + n then mem (src + (a - dst)) else mem a

/-! ## Agent information -/

/-- Record `AgentInfo` with the values of its default constructor. -/
structure AgentInfo where
  m_device : Nat := 0
  m_chipID : Nat := 0
  m_profile : Nat := 0
  m_maxQueueSize : Nat := 0
  coarseRegion : Nat := 0
  fineRegion : Nat := 0
  kernargRegion : Nat := 0
  deriving DecidableEq

/-! ## The kernel argument buffer -/

/-- Class `HSAKernelArgBuffer` with the values its constructor gives
(`m_startOffset` is declared but never written or read by the code). -/
structure HSAKernelArgBuffer where
  m_pArgBuffer : Nat := 0
  m_argBufferSize : Nat := 0
  m_location : Nat := 0
  deriving DecidableEq

/-- Answer of the runtime to `hsa_memory_allocate`. -/
structure AllocateReply where
  status : Nat
  pBuffer : Nat
  deriving DecidableEq

/-- Result of a call that returns a pointer. -/
structure PtrResult where
  ptr : Nat
  world : World

/-- Result of a call on a kernel argument buffer. -/
structure BufferResult where
  ret : Bool
  self : HSAKernelArgBuffer
  world : World

/-- Function `HSAResourceManager::AllocateSysMemory(size)`; `ms_gpu` is the
static default GPU agent. -/
def AllocateSysMemory (ms_gpu : AgentInfo) (w : World) (size : Nat)
    (reply : AllocateReply) : PtrResult :=
  if 0 = ms_gpu.kernargRegion then
    { ptr := 0, world := w }
  else
    let w1 : World :=
      { w with trace := w.trace ++ [Event.hsa_memory_allocate ms_gpu.kernargRegion size] }
    { ptr := if HsaCheckStatus reply.status then reply.pBuffer else 0, world := w1 }

/-- Function `HSAResourceManager::FreeHSAMemory(pBuffer)`; `status` is what
`hsa_memory_free` answers when it is called. -/
def FreeHSAMemory (w : World) (pBuffer : Nat) (status : Nat) : Bool × World :=
  if 0 = pBuffer then
    (true, w)
  else
    (HsaCheckStatus status, { w with trace := w.trace ++ [Event.hsa_memory_free pBuffer] })

/-- Default of the parameter `offsetSize`: `sizeof(uint64_t) * 6`. -/
def defaultOffsetSize : Nat := 8 * 6

/-- Default of the parameter `clearedValue`. -/
def defaultClearedValue : Nat := 0

/-- Method `HSAKernelArgBuffer::AllocateBuffer(bufSize, offsetSize, clearedValue)`. -/
def HSAKernelArgBuffer.AllocateBuffer (self : HSAKernelArgBuffer) (ms_gpu : AgentInfo)
    (w : World) (reply : AllocateReply) (bufSize : Nat) (offsetSize : Nat)
    (clearedValue : Nat) : BufferResult :=
  if 0 = self.m_pArgBuffer then
    let self1 := { self with m_argBufferSize := bufSize }
    let a := AllocateSysMemory ms_gpu w self1.m_argBufferSize reply
    let self2 := { self1 with m_pArgBuffer := a.ptr }
    if 0 = self2.m_pArgBuffer then
      { ret := false, self := self2, world := a.world }
    else
      let self3 := { self2 with m_location := (self2.m_location + offsetSize) % 2 ^ 64 }
      let w2 : World :=
        { a.world with
          mem := memset a.world.mem self3.m_pArgBuffer (static_cast_int clearedValue)
                   self3.m_argBufferSize }
      { ret := true, self := self3, world := w2 }
  else
    { ret := false, self := self, world := w }

/-- Method `HSAKernelArgBuffer::DestroyBuffer()`. -/
def HSAKernelArgBuffer.DestroyBuffer (self : HSAKernelArgBuffer) (w : World)
    (status : Nat) : BufferResult :=
  let r := FreeHSAMemory w self.m_pArgBuffer status
  { ret := r.1,
    self := { self with m_pArgBuffer := 0, m_argBufferSize := 0, m_location := 0 },
    world := r.2 }

/-- Method `HSAKernelArgBuffer::AppendKernelArgs(pAddr, size)`. The destination
of `memcpy` is the 64-bit pointer `m_pArgBuffer + m_location`, which wraps at
`2 ^ 64` like the `std::size_t` sum of the size check. -/
def HSAKernelArgBuffer.AppendKernelArgs (self : HSAKernelArgBuffer) (w : World)
    (pAddr : Nat) (size : Nat) : BufferResult :=
  if 0 = self.m_pArgBuffer then
    { ret := false, self := self, world := w }
  else if 0 = pAddr then
    { ret := false, self := self, world := w }
  else if (self.m_location + size) % 2 ^ 64 > self.m_argBufferSize then
    { ret := false, self := self, world := w }
  else
    { ret := true,
      self := { self with m_location := (self.m_location + size) % 2 ^ 64 },
      world := { w with
        mem := memcpy w.mem ((self.m_pArgBuffer + self.m_location) % 2 ^ 64) pAddr size } }

/-- Method `HSAKernelArgBuffer::GetArgBufferPointer()`. -/
def HSAKernelArgBuffer.GetArgBufferPointer (self : HSAKernelArgBuffer) : Nat :=
  self.m_pArgBuffer

/-! ## The resource manager -/

/-- Record `AQLInfo` with the values of its default constructor. -/
structure AQLInfo where
  m_completionSignal : Nat := 0
  m_executable : Nat := 0
  m_codeObj : Nat := 0
  m_kernArgBuffer : HSAKernelArgBuffer := {}
  deriving DecidableEq

/-- Class `HSAResourceManager`: the static members (`ms_*`) and the members of
the object. The map `m_aqlInfos` is keyed by the address of the packet; the two
unordered sets are lists of handles. With them, the other statics of the
file: `gs_bVerbosePrint`, the table pointer `m_pTable` of `ms_finalizer`, and
the cached version numbers `s_major` and `s_minor` of `GetHsaVersion`. -/
structure HSAResourceManager where
  ms_hsaCount : Nat := 0
  ms_hasRuntime : Bool := false
  ms_profilingEnabled : Bool := false
  ms_gpu : AgentInfo := {}
  ms_cpu : AgentInfo := {}
  ms_pQueue : Nat := 0
  m_signals : List Nat := []
  m_aqlInfos : List (Nat × AQLInfo) := []
  m_executableSet : List Nat := []
  m_codeObjSet : List Nat := []
  gs_bVerbosePrint : Bool := false
  ms_finalizer_m_pTable : Nat := 0
  s_major : Nat := 0
  s_minor : Nat := 0
  deriving DecidableEq

/-- Lookup in `m_aqlInfos` without inserting. -/
def aqlInfoFind (m : List (Nat × AQLInfo)) (key : Nat) : Option AQLInfo :=
  m.lookup key

/-- Map access `m_aqlInfos[key]` of `std::unordered_map`: a missing key is
inserted with a default-constructed `AQLInfo`. Returns the entry and the map. -/
def aqlInfoIndex (m : List (Nat × AQLInfo)) (key : Nat) : AQLInfo × List (Nat × AQLInfo) :=
  match m.lookup key with
  | some info => (info, m)
  | none => ({}, m ++ [(key, {})])

/-- Assignment through `m_aqlInfos[key]`, for a key that is present. -/
def aqlInfoStore (m : List (Nat × AQLInfo)) (key : Nat) (info : AQLInfo) :
    List (Nat × AQLInfo) :=
  m.map fun e => if e.1 = key then (e.1, info) else e

/-- Accessor `HSAResourceManager::Queue()`. -/
def HSAResourceManager.Queue (self : HSAResourceManager) : Nat :=
  self.ms_pQueue

/-- Result of a call on the manager that takes a packet by reference. -/
structure PacketResult where
  ret : Bool
  self : HSAResourceManager
  world : World
  aql : hsa_kernel_dispatch_packet_t

/-- Method `HSAResourceManager::CopyKernelDispatchPacket(aqlPacket, bCopySignal,
aqlPacketOut)`. Both packets are passed by reference: `packets` gives the
packet object at each address, `aqlPacketAddr` and `aqlPacketOutAddr` are the
addresses of the two arguments, which may be one and the same object, and the
result is the return value and the packet objects after the call. `memcpy`
returns its first argument, the address of `aqlPacketOut`. -/
def HSAResourceManager.CopyKernelDispatchPacket
    (packets : Nat → hsa_kernel_dispatch_packet_t) (aqlPacketAddr : Nat)
    (bCopySignal : Bool) (aqlPacketOutAddr : Nat) :
    Bool × (Nat → hsa_kernel_dispatch_packet_t) :=
  -- memcpy(&aqlPacketOut, &aqlPacket, sizeof(hsa_kernel_dispatch_packet_t))
  let packets1 : Nat → hsa_kernel_dispatch_packet_t :=
    fun a => if a = aqlPacketOutAddr then packets aqlPacketAddr else packets a
  if 0 = aqlPacketOutAddr then
    (false, packets1)
  else
    let packets2 : Nat → hsa_kernel_dispatch_packet_t :=
      if !bCopySignal then
        fun a => if a = aqlPacketOutAddr then { packets1 a with completion_signal := 0 }
                 else packets1 a
      else packets1
    (true, packets2)

/-- Method `HSAResourceManager::AppendKernelArgs(pAddr, size, aql)`;
`aqlAddr` is the address of `aql`. -/
def HSAResourceManager.AppendKernelArgs (self : HSAResourceManager) (w : World)
    (pAddr : Nat) (size : Nat) (aqlAddr : Nat) : Bool × HSAResourceManager × World :=
  let e := aqlInfoIndex self.m_aqlInfos aqlAddr
  let r := e.1.m_kernArgBuffer.AppendKernelArgs w pAddr size
  (r.ret,
   { self with m_aqlInfos := aqlInfoStore e.2 aqlAddr { e.1 with m_kernArgBuffer := r.self } },
   r.world)

/-- Method `HSAResourceManager::RegisterKernelArgsBuffer(aql)`. -/
def HSAResourceManager.RegisterKernelArgsBuffer (self : HSAResourceManager) (w : World)
    (aqlAddr : Nat) (aql : hsa_kernel_dispatch_packet_t) : PacketResult :=
  let e := aqlInfoIndex self.m_aqlInfos aqlAddr
  let self1 := { self with m_aqlInfos := e.2 }
  let aql1 := { aql with kernarg_address := e.1.m_kernArgBuffer.GetArgBufferPointer }
  if 0 = aql1.kernarg_address then
    { ret := false, self := self1, world := w, aql := aql1 }
  else
    { ret := true, self := self1, world := w, aql := aql1 }

/-- Method `HSAResourceManager::Dispatch(aql)`; `aqlAddr` is the address of `aql`. -/
def HSAResourceManager.Dispatch (self : HSAResourceManager) (w : World)
    (aqlAddr : Nat) (aql : hsa_kernel_dispatch_packet_t) : PacketResult :=
  if 0 = self.ms_pQueue then
    { ret := false, self := self, world := w, aql := aql }
  else
    -- `m_aqlInfos[&aql]` is evaluated first and inserts a missing entry
    let e := aqlInfoIndex self.m_aqlInfos aqlAddr
    let self1 := { self with m_aqlInfos := e.2 }
    let r : PacketResult :=
      if 0 ≠ e.1.m_kernArgBuffer.GetArgBufferPointer ∧ 0 = aql.kernarg_address then
        self1.RegisterKernelArgsBuffer w aqlAddr aql
      else
        { ret := true, self := self1, world := w, aql := aql }
    let q := r.world.queues r.self.ms_pQueue
    let queueSize := q.size
    let queueMask := (queueSize + (2 ^ 32 - 1)) % 2 ^ 32
    -- write to queue
    let index := q.write_index
    let slot := index &&& queueMask
    let q1 : hsa_queue_t :=
      { q with base_address := fun s => if s = slot then r.aql else q.base_address s }
    let q2 : hsa_queue_t := { q1 with write_index := (index + 1) % 2 ^ 64 }
    -- ring doorbell
    let w3 : World :=
      { r.world with
        queues := fun p => if p = r.self.ms_pQueue then q2 else r.world.queues p,
        trace := r.world.trace ++
          [Event.hsa_queue_load_write_index_relaxed r.self.ms_pQueue,
           Event.queue_packet_store r.self.ms_pQueue slot r.aql,
           Event.hsa_queue_store_write_index_relaxed r.self.ms_pQueue ((index + 1) % 2 ^ 64),
           Event.hsa_signal_store_release q.doorbell_signal
             (static_cast_hsa_signal_value_t index)] }
    { ret := true, self := r.self, world := w3, aql := r.aql }

/-- Answer of the runtime to `hsa_signal_create`. -/
structure SignalCreateReply where
  status : Nat
  signal : Nat
  deriving DecidableEq

/-- Result of `CreateSignal`: the return value, the manager, the world and the
value of `signalOut` after the call. -/
structure SignalResult where
  ret : Bool
  self : HSAResourceManager
  world : World
  signalOut : Nat

/-- Method `HSAResourceManager::CreateSignal(signalOut)`. -/
def HSAResourceManager.CreateSignal (self : HSAResourceManager) (w : World)
    (reply : SignalCreateReply) (signalOut : Nat) : SignalResult :=
  -- the initial value of the signal is 1
  let w1 : World := { w with trace := w.trace ++ [Event.hsa_signal_create 1 0] }
  if !HsaCheckStatus reply.status then
    { ret := false, self := self, world := w1, signalOut := signalOut }
  else
    { ret := true,
      self := { self with m_signals := self.m_signals ++ [reply.signal] },
      world := w1,
      signalOut := reply.signal }

/-- Result of a call on the manager: the return value, the manager, the world. -/
structure ManagerResult where
  ret : Bool
  self : HSAResourceManager
  world : World

/-- Method `HSAResourceManager::DestroyQueue()`; `status` is what
`hsa_queue_destroy` answers when it is called. -/
def HSAResourceManager.DestroyQueue (self : HSAResourceManager) (w : World)
    (status : Nat) : ManagerResult :=
  if 0 ≠ self.ms_pQueue then
    let w1 : World := { w with trace := w.trace ++ [Event.hsa_queue_destroy self.ms_pQueue] }
    let ret := HsaCheckStatus status
    if true ≠ ret then
      { ret := ret, self := self, world := w1 }
    else
      { ret := ret, self := { self with ms_pQueue := 0 }, world := w1 }
  else
    { ret := true, self := self, world := w }

/-- Method `HSAResourceManager::SetQueue(pQueue)`; `status` is what
`hsa_queue_destroy` answers when it is called. -/
def HSAResourceManager.SetQueue (self : HSAResourceManager) (w : World)
    (status : Nat) (pQueue : Nat) : ManagerResult :=
  let d := self.DestroyQueue w status
  if !d.ret then
    { ret := false, self := d.self, world := d.world }
  else
    { ret := true, self := { d.self with ms_pQueue := pQueue }, world := d.world }

/-- The signal condition `HSA_SIGNAL_CONDITION_EQ` of the vendor header. -/
def HSA_SIGNAL_CONDITION_EQ : Nat := 0

/-- The wait state `HSA_WAIT_STATE_ACTIVE` of the vendor header. -/
def HSA_WAIT_STATE_ACTIVE : Nat := 1

/-- The default of the parameter `timeout`: `UINT64_MAX`. -/
def UINT64_MAX : Nat := 2 ^ 64 - 1

/-- Method `HSAResourceManager::WaitForCompletion(completionSignal, timeout,
outputTimingData)`. `waitValue` is the value that `hsa_signal_wait_acquire`
returns, the value it observed in the signal; `profilingStatus` is what
`hsa_amd_profiling_get_dispatch_time` answers when it is called (the status is
checked and the times are printed, nothing else is done with them). -/
def HSAResourceManager.WaitForCompletion (self : HSAResourceManager) (w : World)
    (completionSignal : Nat) (timeout : Nat) (outputTimingData : Bool)
    (waitValue : Int) (profilingStatus : Nat) : ManagerResult :=
  let w1 : World :=
    { w with
      trace := w.trace ++
        [Event.hsa_signal_wait_acquire completionSignal HSA_SIGNAL_CONDITION_EQ 0 timeout
          HSA_WAIT_STATE_ACTIVE],
      signals := fun s => if s = completionSignal then waitValue else w.signals s }
  let ret := if 0 ≠ waitValue then false else true
  if outputTimingData && self.ms_profilingEnabled then
    let w2 : World :=
      { w1 with
        trace := w1.trace ++
          [Event.hsa_amd_profiling_get_dispatch_time self.ms_gpu.m_device completionSignal] }
    let _checked := HsaCheckStatus profilingStatus
    { ret := ret, self := self, world := w2 }
  else
    { ret := ret, self := self, world := w1 }

/-- The kernel argument address a packet carries after the registration step
of `Dispatch`: the address of its buffer when it has one and carries none. -/
def registeredKernarg (self : HSAResourceManager) (aqlAddr : Nat)
    (aql : hsa_kernel_dispatch_packet_t) : Nat :=
  match aqlInfoFind self.m_aqlInfos aqlAddr with
  | some info =>
    if info.m_kernArgBuffer.m_pArgBuffer ≠ 0 ∧ aql.kernarg_address = 0 then
      info.m_kernArgBuffer.m_pArgBuffer
    else aql.kernarg_address
  | none => aql.kernarg_address

/-! ## Concrete inputs used to evaluate the model -/

/-- A packet with recognisable field values and no kernel argument address. -/
def samplePacket : hsa_kernel_dispatch_packet_t :=
  { header := 1538, setup := 2, workgroup_size_x := 16, workgroup_size_y := 16,
    workgroup_size_z := 1, reserved0 := 0, grid_size_x := 128, grid_size_y := 80,
    grid_size_z := 1, private_segment_size := 0, group_segment_size := 0,
    kernel_object := 4660, kernarg_address := 0, reserved2 := 0, completion_signal := 77 }

/-- The all-zero packet. -/
def zeroPacket : hsa_kernel_dispatch_packet_t :=
  { header := 0, setup := 0, workgroup_size_x := 0, workgroup_size_y := 0,
    workgroup_size_z := 0, reserved0 := 0, grid_size_x := 0, grid_size_y := 0,
    grid_size_z := 0, private_segment_size := 0, group_segment_size := 0,
    kernel_object := 0, kernarg_address := 0, reserved2 := 0, completion_signal := 0 }

/-- Packet objects by address: `samplePacket` (completion signal 77) at
address 100, the zero packet everywhere else. -/
def samplePackets : Nat → hsa_kernel_dispatch_packet_t :=
  fun a => if a = 100 then samplePacket else zeroPacket

/-- A queue of 4 slots, all zero, whose write index is 5 and doorbell is 9. -/
def sampleQueue : hsa_queue_t :=
  { base_address := fun _ => zeroPacket, doorbell_signal := 9, size := 4, write_index := 5 }

/-- A world with zeroed memory, `sampleQueue` at every address, no events, and
every signal at its initial value 1. -/
def sampleWorld : World :=
  { mem := fun _ => 0, queues := fun _ => sampleQueue, trace := [], signals := fun _ => 1 }

/-- The sample world with a recognisable byte at every address. -/
def patternWorld : World :=
  { sampleWorld with mem := fun a => a % 251 }

/-- A manager whose queue is at address 3 and that tracks, for the packet at
address 100, a kernel argument buffer at address 4096. -/
def sampleManager : HSAResourceManager :=
  { ms_hasRuntime := true, ms_gpu := { kernargRegion := 5 }, ms_pQueue := 3,
    m_signals := [77],
    m_aqlInfos := [(100, { m_completionSignal := 77,
                           m_kernArgBuffer := { m_pArgBuffer := 4096, m_argBufferSize := 256,
                                                m_location := 48 } })] }

/-- The same manager with no queue set. -/
def sampleManagerNoQueue : HSAResourceManager :=
  { sampleManager with ms_pQueue := 0 }

/-- A buffer of 256 bytes whose next location is 4 below `2 ^ 64`. -/
def wrappedBuffer : HSAKernelArgBuffer :=
  { m_pArgBuffer := 4096, m_argBufferSize := 256, m_location := 2 ^ 64 - 4 }

/-- A run of `AppendKernelArgs` calls, one per `(pAddr, size)`, in order, on
one buffer (the sample goes on after a failed call). For each call: the
location before it and what it returned; then the buffer and world at the end. -/
def appendKernelArgsSeq (self : HSAKernelArgBuffer) (w : World) :
    List (Nat × Nat) → List (Nat × Bool) × HSAKernelArgBuffer × World
  | [] => ([], self, w)
  | (pAddr, size) :: rest =>
    let r := self.AppendKernelArgs w pAddr size
    let t := appendKernelArgsSeq r.self r.world rest
    ((self.m_location, r.ret) :: t.1, t.2.1, t.2.2)

/-- Start offsets of consecutive arguments of the given sizes, from `start`. -/
def argOffsets (start : Nat) : List Nat → List Nat
  | [] => []
  | s :: ss => start :: argOffsets (start + s) ss

/-- The five `AppendKernelArgs` calls of the matrix multiplication sample:
three `float*` arguments and two `uint32_t` arguments (addresses are samples). -/
def matrixMulArgs : List (Nat × Nat) :=
  [(9000, 8), (9008, 8), (9016, 8), (9024, 4), (9032, 4)]

/-- A successful answer of `hsa_memory_allocate` with the buffer at 4096. -/
def sampleAllocateReply : AllocateReply :=
  { status := 0, pBuffer := 4096 }

/-- The default GPU agent of `sampleManager`, with a kernel argument region. -/
def sampleGpu : AgentInfo :=
  { kernargRegion := 5 }

/-- The buffer of `sampleManager` for the packet at address 100. -/
def sampleBuffer : HSAKernelArgBuffer :=
  { m_pArgBuffer := 4096, m_argBufferSize := 256, m_location := 48 }

/-! ## The default packet -/

/-- The packet type `HSA_PACKET_TYPE_KERNEL_DISPATCH` of the vendor header. -/
def HSA_PACKET_TYPE_KERNEL_DISPATCH : Nat := 2

/-- The fence scope `HSA_FENCE_SCOPE_SYSTEM` of the vendor header. -/
def HSA_FENCE_SCOPE_SYSTEM : Nat := 2

/-- Bit position `HSA_PACKET_HEADER_TYPE` of the packet type in the header
(the vendor header gives the field 8 bits). -/
def HSA_PACKET_HEADER_TYPE : Nat := 0

/-- Bit position `HSA_PACKET_HEADER_BARRIER` of the barrier bit in the header. -/
def HSA_PACKET_HEADER_BARRIER : Nat := 8

/-- Bit position `HSA_PACKET_HEADER_ACQUIRE_FENCE_SCOPE` of the acquire fence
scope in the header (2 bits). -/
def HSA_PACKET_HEADER_ACQUIRE_FENCE_SCOPE : Nat := 9

/-- Bit position `HSA_PACKET_HEADER_RELEASE_FENCE_SCOPE` of the release fence
scope in the header (2 bits). -/
def HSA_PACKET_HEADER_RELEASE_FENCE_SCOPE : Nat := 11

/-- Bit position `HSA_KERNEL_DISPATCH_PACKET_SETUP_DIMENSIONS` of the number of
dimensions in `setup` (2 bits). -/
def HSA_KERNEL_DISPATCH_PACKET_SETUP_DIMENSIONS : Nat := 0

/-- Function `InitAQL(aqlPacketOut)`: the return value and the packet after
the call. `header` and `setup` are `uint16_t`. -/
def InitAQL (_aqlPacketOut : hsa_kernel_dispatch_packet_t) :
    Bool × hsa_kernel_dispatch_packet_t :=
  let ret := true
  -- memset(&aqlPacketOut, 0, sizeof(hsa_kernel_dispatch_packet_t))
  let p0 : hsa_kernel_dispatch_packet_t := zeroPacket
  let p1 := { p0 with
    header := (p0.header ||| (HSA_PACKET_TYPE_KERNEL_DISPATCH <<< HSA_PACKET_HEADER_TYPE))
                % 2 ^ 16 }
  let p2 := { p1 with
    header := (p1.header ||| (HSA_FENCE_SCOPE_SYSTEM <<< HSA_PACKET_HEADER_ACQUIRE_FENCE_SCOPE))
                % 2 ^ 16 }
  let p3 := { p2 with
    header := (p2.header ||| (HSA_FENCE_SCOPE_SYSTEM <<< HSA_PACKET_HEADER_RELEASE_FENCE_SCOPE))
                % 2 ^ 16 }
  let p4 := { p3 with
    setup := (p3.setup ||| (1 <<< HSA_KERNEL_DISPATCH_PACKET_SETUP_DIMENSIONS)) % 2 ^ 16 }
  let p5 := { p4 with workgroup_size_x := 1, workgroup_size_y := 1, workgroup_size_z := 1,
                      grid_size_x := 1, grid_size_y := 1, grid_size_z := 1 }
  (ret, p5)

/-! ## Agent discovery -/

/-- The status code `HSA_STATUS_ERROR` of the vendor header. -/
def HSA_STATUS_ERROR : Nat := 0x1000

/-- The status code `HSA_STATUS_ERROR_INVALID_ARGUMENT` of the vendor header. -/
def HSA_STATUS_ERROR_INVALID_ARGUMENT : Nat := 0x1001

/-- The device type `HSA_DEVICE_TYPE_CPU` of the vendor header. -/
def HSA_DEVICE_TYPE_CPU : Nat := 0

/-- The device type `HSA_DEVICE_TYPE_GPU` of the vendor header. -/
def HSA_DEVICE_TYPE_GPU : Nat := 1

/-- The device type `HSA_DEVICE_TYPE_DSP` of the vendor header. -/
def HSA_DEVICE_TYPE_DSP : Nat := 2

/-- The agent attribute `HSA_AGENT_INFO_NAME` of the vendor header. -/
def HSA_AGENT_INFO_NAME : Nat := 0

/-- The agent attribute `HSA_AGENT_INFO_PROFILE` of the vendor header. -/
def HSA_AGENT_INFO_PROFILE : Nat := 4

/-- The agent attribute `HSA_AGENT_INFO_DEVICE` of the vendor header. -/
def HSA_AGENT_INFO_DEVICE : Nat := 17

/-- The agent attribute `HSA_AMD_AGENT_INFO_CHIP_ID` of the vendor header. -/
def HSA_AMD_AGENT_INFO_CHIP_ID : Nat := 0xA000

/-- Local struct `AgentList` of the GPU and CPU agents found so far. -/
structure AgentList where
  m_vecGPU : List AgentInfo := []
  m_vecCPU : List AgentInfo := []
  deriving DecidableEq

/-- Answers of the runtime to the `hsa_agent_get_info` calls that
`QueryDevice_Callback` makes for one agent: for each query the status, and the
value the queried variable holds after the call. -/
structure AgentQueryReply where
  deviceStatus : Nat
  deviceType : Nat
  chipStatus : Nat
  chipID : Nat
  profileStatus : Nat
  profile : Nat
  nameStatus : Nat
  deriving DecidableEq

/-- Function `QueryDevice_Callback(agent, pData)`. `pData` is the `AgentList`
it points to, or `none` for `nullptr`; the result is the returned status, the
list after the call and the world. `gs_bVerbosePrint` is the file static. -/
def QueryDevice_Callback (gs_bVerbosePrint : Bool) (w : World) (agent : Nat)
    (pData : Option AgentList) (reply : AgentQueryReply) :
    Nat × Option AgentList × World :=
  match pData with
  | none => (HSA_STATUS_ERROR_INVALID_ARGUMENT, none, w)
  | some pAgentList =>
    let agentInfo0 : AgentInfo := {}
    let agentInfo1 := { agentInfo0 with m_device := agent }
    -- query type of device
    let w1 : World :=
      { w with trace := w.trace ++ [Event.hsa_agent_get_info agent HSA_AGENT_INFO_DEVICE] }
    let deviceType := reply.deviceType
    -- query chip id
    let w2 : World :=
      { w1 with
        trace := w1.trace ++ [Event.hsa_agent_get_info agent HSA_AMD_AGENT_INFO_CHIP_ID] }
    let agentInfo2 := { agentInfo1 with m_chipID := reply.chipID }
    let agentInfo3 :=
      if !HsaCheckStatus reply.chipStatus then { agentInfo2 with m_chipID := 0 } else agentInfo2
    -- query HSA profile of the agent
    let w3 : World :=
      { w2 with trace := w2.trace ++ [Event.hsa_agent_get_info agent HSA_AGENT_INFO_PROFILE] }
    let agentInfo := { agentInfo3 with m_profile := reply.profile }
    let err := reply.profileStatus
    let pAgentList1 : AgentList :=
      if deviceType = HSA_DEVICE_TYPE_CPU then
        { pAgentList with m_vecCPU := pAgentList.m_vecCPU ++ [agentInfo] }
      else if deviceType = HSA_DEVICE_TYPE_GPU then
        { pAgentList with m_vecGPU := pAgentList.m_vecGPU ++ [agentInfo] }
      else pAgentList
    if gs_bVerbosePrint then
      let w4 : World :=
        { w3 with trace := w3.trace ++ [Event.hsa_agent_get_info agent HSA_AGENT_INFO_NAME] }
      (reply.nameStatus, some pAgentList1, w4)
    else
      (err, some pAgentList1, w3)

/-- The entry that `QueryDevice_Callback` builds for an agent: its handle, its
chip id (0 when the chip id query fails) and its profile. -/
def queriedAgentInfo (agent : Nat) (reply : AgentQueryReply) : AgentInfo :=
  { m_device := agent,
    m_chipID := if reply.chipStatus = HSA_STATUS_SUCCESS then reply.chipID else 0,
    m_profile := reply.profile }

/-- The list after `QueryDevice_Callback` has classified one agent: its entry
at the end of the CPU list for a CPU, of the GPU list for a GPU, no entry
for another type. -/
def classifiedAgentList (agentList : AgentList) (agent : Nat) (reply : AgentQueryReply) :
    AgentList :=
  if reply.deviceType = HSA_DEVICE_TYPE_CPU then
    { m_vecGPU := agentList.m_vecGPU,
      m_vecCPU := agentList.m_vecCPU ++ [queriedAgentInfo agent reply] }
  else if reply.deviceType = HSA_DEVICE_TYPE_GPU then
    { m_vecGPU := agentList.m_vecGPU ++ [queriedAgentInfo agent reply],
      m_vecCPU := agentList.m_vecCPU }
  else agentList

/-- The entries of the agents of one device type, in the order of the agents. -/
def discoveredOfType (deviceType : Nat) (agents : List (Nat × AgentQueryReply)) :
    List AgentInfo :=
  (agents.filter fun a => decide (a.2.deviceType = deviceType)).map
    fun a => queriedAgentInfo a.1 a.2

/-- Runtime function `hsa_iterate_agents(QueryDevice_Callback, pData)` over the
agents the runtime knows, each with its answers: the callback is called for
each agent in turn; the traversal stops at the first status other than success
and returns it, and returns `status` when every call succeeded. -/
def hsa_iterate_agents (gs_bVerbosePrint : Bool) (w : World)
    (pData : Option AgentList) (status : Nat) :
    List (Nat × AgentQueryReply) → Nat × Option AgentList × World
  | [] => (status, pData, w)
  | (agent, reply) :: rest =>
    let r := QueryDevice_Callback gs_bVerbosePrint w agent pData reply
    if r.1 ≠ HSA_STATUS_SUCCESS then r
    else hsa_iterate_agents gs_bVerbosePrint r.2.2 r.2.1 status rest

/-- A GPU agent (handle 11) with chip id 26640 and profile 1, all queries
answered with success. -/
def sampleGpuAgent : Nat × AgentQueryReply :=
  (11, { deviceStatus := 0, deviceType := 1, chipStatus := 0, chipID := 26640,
         profileStatus := 0, profile := 1, nameStatus := 0 })

/-- A CPU agent (handle 12) whose chip id query fails. -/
def sampleCpuAgent : Nat × AgentQueryReply :=
  (12, { deviceStatus := 0, deviceType := 0, chipStatus := 4096, chipID := 555,
         profileStatus := 0, profile := 1, nameStatus := 0 })

/-- A DSP agent (handle 13). -/
def sampleDspAgent : Nat × AgentQueryReply :=
  (13, { deviceStatus := 0, deviceType := 2, chipStatus := 0, chipID := 7,
         profileStatus := 0, profile := 0, nameStatus := 0 })

/-- An agent list that already holds one GPU agent and one CPU agent. -/
def sampleAgentList : AgentList :=
  { m_vecGPU := [{ m_device := 1, m_chipID := 100 }],
    m_vecCPU := [{ m_device := 2, m_chipID := 200 }] }

/-! ## Runtime initialisation -/

/-- The region segment `HSA_REGION_SEGMENT_GLOBAL` of the vendor header. -/
def HSA_REGION_SEGMENT_GLOBAL : Nat := 0

/-- The region flag `HSA_REGION_GLOBAL_FLAG_KERNARG` of the vendor header. -/
def HSA_REGION_GLOBAL_FLAG_KERNARG : Nat := 1

/-- The region flag `HSA_REGION_GLOBAL_FLAG_FINE_GRAINED` of the vendor header. -/
def HSA_REGION_GLOBAL_FLAG_FINE_GRAINED : Nat := 2

/-- The region flag `HSA_REGION_GLOBAL_FLAG_COARSE_GRAINED` of the vendor header. -/
def HSA_REGION_GLOBAL_FLAG_COARSE_GRAINED : Nat := 4

/-- The region attribute `HSA_REGION_INFO_SEGMENT` of the vendor header. -/
def HSA_REGION_INFO_SEGMENT : Nat := 0

/-- The region attribute `HSA_REGION_INFO_GLOBAL_FLAGS` of the vendor header. -/
def HSA_REGION_INFO_GLOBAL_FLAGS : Nat := 1

/-- The system attribute `HSA_SYSTEM_INFO_VERSION_MAJOR` of the vendor header. -/
def HSA_SYSTEM_INFO_VERSION_MAJOR : Nat := 0

/-- The system attribute `HSA_SYSTEM_INFO_VERSION_MINOR` of the vendor header. -/
def HSA_SYSTEM_INFO_VERSION_MINOR : Nat := 1

/-- The extension `HSA_EXTENSION_FINALIZER` of the vendor header. -/
def HSA_EXTENSION_FINALIZER : Nat := 0

/-- Answers of the runtime to the `hsa_region_get_info` calls that
`FindMemRegions_Callback` makes for one region. -/
structure RegionQueryReply where
  segmentStatus : Nat
  segment_id : Nat
  flagsStatus : Nat
  flags : Nat
  deriving DecidableEq

/-- Function `FindMemRegions_Callback(region, data)`. `data` is the
`AgentInfo` it points to, or `none` for `nullptr`. -/
def FindMemRegions_Callback (w : World) (region : Nat) (data : Option AgentInfo)
    (reply : RegionQueryReply) : Nat × Option AgentInfo × World :=
  match data with
  | none => (HSA_STATUS_ERROR, none, w)
  | some pRegion =>
    let w1 : World :=
      { w with trace := w.trace ++ [Event.hsa_region_get_info region HSA_REGION_INFO_SEGMENT] }
    let status := reply.segmentStatus
    if !HsaCheckStatus status then
      (status, some pRegion, w1)
    else if HSA_REGION_SEGMENT_GLOBAL ≠ reply.segment_id then
      (HSA_STATUS_SUCCESS, some pRegion, w1)
    else
      let w2 : World :=
        { w1 with
          trace := w1.trace ++ [Event.hsa_region_get_info region HSA_REGION_INFO_GLOBAL_FLAGS] }
      let status := reply.flagsStatus
      if !HsaCheckStatus status then
        (status, some pRegion, w2)
      else
        let p1 :=
          if reply.flags &&& HSA_REGION_GLOBAL_FLAG_COARSE_GRAINED ≠ 0 then
            { pRegion with coarseRegion := region } else pRegion
        let p2 :=
          if reply.flags &&& HSA_REGION_GLOBAL_FLAG_KERNARG ≠ 0 then
            { p1 with kernargRegion := region } else p1
        let p3 :=
          if reply.flags &&& HSA_REGION_GLOBAL_FLAG_FINE_GRAINED ≠ 0 then
            { p2 with fineRegion := region } else p2
        (HSA_STATUS_SUCCESS, some p3, w2)

/-- Runtime function `hsa_agent_iterate_regions(agent, FindMemRegions_Callback,
data)` over the regions of the agent, each with its answers: the traversal
stops at the first status other than success and returns it, and returns
`status` when every call succeeded. -/
def hsa_agent_iterate_regions (w : World) (data : Option AgentInfo) (status : Nat) :
    List (Nat × RegionQueryReply) → Nat × Option AgentInfo × World
  | [] => (status, data, w)
  | (region, reply) :: rest =>
    let r := FindMemRegions_Callback w region data reply
    if r.1 ≠ HSA_STATUS_SUCCESS then r
    else hsa_agent_iterate_regions r.2.2 r.2.1 status rest

/-- Answers to the calls of `HSAFinalizer::GetExtensionTable`: the pointer
that `new` returns, and what `hsa_system_extension_supported` and
`hsa_system_get_extension_table` answer. -/
structure ExtensionReply where
  newTable : Nat
  supportedStatus : Nat
  isSupported : Bool
  tableStatus : Nat
  deriving DecidableEq

/-- Static function `GetExtensionTable(extension, major, minor, pTable)` of the
finalizer file. -/
def GetExtensionTable (w : World) (extension major minor : Nat) (_pTable : Nat)
    (reply : ExtensionReply) : Bool × World :=
  let w1 : World :=
    { w with trace := w.trace ++ [Event.hsa_system_extension_supported extension major minor] }
  if HSA_STATUS_SUCCESS ≠ reply.supportedStatus ∨ true ≠ reply.isSupported then
    -- each of the three cases prints a message and returns false
    (false, w1)
  else
    let w2 : World :=
      { w1 with
        trace := w1.trace ++ [Event.hsa_system_get_extension_table extension major minor] }
    if HSA_STATUS_SUCCESS ≠ reply.tableStatus then (false, w2) else (true, w2)

/-- Method `HSAFinalizer::GetExtensionTable(major, minor)`: the return value,
`m_pTable` after the call and the world. -/
def HSAFinalizer.GetExtensionTable (m_pTable : Nat) (w : World) (major minor : Nat)
    (reply : ExtensionReply) : Bool × Nat × World :=
  let m_pTable1 := if 0 = m_pTable then reply.newTable else m_pTable
  if 0 = m_pTable ∧ 0 = m_pTable1 then
    (false, m_pTable1, w)
  else
    let r := AMDT.GetExtensionTable w HSA_EXTENSION_FINALIZER major minor m_pTable1 reply
    if !r.1 then (false, m_pTable1, r.2) else (true, m_pTable1, r.2)

/-- Answers of the runtime to the calls of `GetHsaVersion`; `major` and `minor`
are the values that `s_major` and `s_minor` hold after the queries. -/
structure VersionReply where
  initStatus : Nat
  majorStatus : Nat
  major : Nat
  minorStatus : Nat
  minor : Nat
  shutDownStatus : Nat
  deriving DecidableEq

/-- Result of `GetHsaVersion`: the return value, the two output parameters, the
manager and the world. -/
structure VersionResult where
  ret : Bool
  major : Nat
  minor : Nat
  self : HSAResourceManager
  world : World

/-- Method `HSAResourceManager::GetHsaVersion(major, minor)`. -/
def HSAResourceManager.GetHsaVersion (self : HSAResourceManager) (w : World)
    (major minor : Nat) (reply : VersionReply) : VersionResult :=
  if 0 ≠ self.s_major ∨ 0 ≠ self.s_minor then
    { ret := true, major := self.s_major, minor := self.s_minor, self := self, world := w }
  else
    let w1 : World :=
      if false = self.ms_hasRuntime then { w with trace := w.trace ++ [Event.hsa_init] } else w
    if false = self.ms_hasRuntime ∧ !HsaCheckStatus reply.initStatus then
      { ret := false, major := major, minor := minor, self := self, world := w1 }
    else
      let w2 : World :=
        { w1 with
          trace := w1.trace ++ [Event.hsa_system_get_info HSA_SYSTEM_INFO_VERSION_MAJOR] }
      let self1 := { self with s_major := reply.major % 2 ^ 16 }
      let ret1 := if !HsaCheckStatus reply.majorStatus then false else true
      let w3 : World :=
        { w2 with
          trace := w2.trace ++ [Event.hsa_system_get_info HSA_SYSTEM_INFO_VERSION_MINOR] }
      let self2 := { self1 with s_minor := reply.minor % 2 ^ 16 }
      let ret2 := if !HsaCheckStatus reply.minorStatus then false else ret1
      if false = self2.ms_hasRuntime then
        let w4 : World := { w3 with trace := w3.trace ++ [Event.hsa_shut_down] }
        let ret3 := if !HsaCheckStatus reply.shutDownStatus then false else ret2
        { ret := ret3, major := self2.s_major, minor := self2.s_minor, self := self2,
          world := w4 }
      else
        { ret := ret2, major := self2.s_major, minor := self2.s_minor, self := self2,
          world := w3 }

/-- Accessor `HSAResourceManager::HasRuntime()`. -/
def HSAResourceManager.HasRuntime (self : HSAResourceManager) : Bool :=
  self.ms_hasRuntime

/-- Accessor `HSAResourceManager::GPUInfo()`. -/
def HSAResourceManager.GPUInfo (self : HSAResourceManager) : AgentInfo :=
  self.ms_gpu

/-- Accessor `HSAResourceManager::CPUInfo()`. -/
def HSAResourceManager.CPUInfo (self : HSAResourceManager) : AgentInfo :=
  self.ms_cpu

/-- Answers of the runtime to the calls of `InitRuntime`, in the order of the
calls. -/
structure InitRuntimeAnswers where
  initStatus : Nat
  shutDownStatus : Nat
  extension : ExtensionReply
  agents : List (Nat × AgentQueryReply)
  iterateAgentsStatus : Nat
  gpuRegions : List (Nat × RegionQueryReply)
  gpuRegionsStatus : Nat
  cpuRegions : List (Nat × RegionQueryReply)
  cpuRegionsStatus : Nat
  version : VersionReply

/-- Result of `InitRuntime`: the return value, the manager, the world, and the
local `agentList` as agent discovery left it (empty when discovery did not run). -/
structure InitRuntimeResult where
  ret : Bool
  self : HSAResourceManager
  world : World
  agentList : AgentList

/-- The last block of `InitRuntime`: caching the version numbers. -/
def HSAResourceManager.InitRuntime_cacheVersion (self : HSAResourceManager) (w : World)
    (ret : Bool) (agentList : AgentList) (a : InitRuntimeAnswers) : InitRuntimeResult :=
  let v := self.GetHsaVersion w 0 0 a.version
  let ret1 := if true ≠ v.ret ∨ (0 = v.major ∧ 0 = v.minor) then ret && false else ret
  { ret := ret1, self := v.self, world := v.world, agentList := agentList }

/-- The first block of `InitRuntime` when no runtime is initialised yet:
`hsa_init`, the finalizer extension table and agent discovery. The result
holds `ret` so far and the local `agentList`. -/
def HSAResourceManager.InitRuntime_discover (self : HSAResourceManager) (w : World)
    (verbosePrint : Bool) (a : InitRuntimeAnswers) : InitRuntimeResult :=
  let w1 : World := { w with trace := w.trace ++ [Event.hsa_init] }
  let ret1 := HsaCheckStatus a.initStatus
  let w2 : World :=
    if true ≠ ret1 then { w1 with trace := w1.trace ++ [Event.hsa_shut_down] } else w1
  let f := HSAFinalizer.GetExtensionTable self.ms_finalizer_m_pTable w2 1 0 a.extension
  let self1 := { self with ms_finalizer_m_pTable := f.2.1 }
  let ret2 := if true ≠ f.1 then ret1 && false else ret1
  let self2 := { self1 with gs_bVerbosePrint := verbosePrint }
  -- local agentList to get agents information
  let agentList0 : AgentList := {}
  let w3 : World := { f.2.2 with trace := f.2.2.trace ++ [Event.hsa_iterate_agents] }
  let it := hsa_iterate_agents self2.gs_bVerbosePrint w3 (some agentList0)
              a.iterateAgentsStatus a.agents
  let agentList := it.2.1.getD agentList0
  let ret3 := if !HsaCheckStatus it.1 then ret2 && false else ret2
  { ret := ret3, self := self2, world := it.2.2, agentList := agentList }

/-- Method `HSAResourceManager::InitRuntime(verbosePrint)`. -/
def HSAResourceManager.InitRuntime (self : HSAResourceManager) (w : World)
    (verbosePrint : Bool) (a : InitRuntimeAnswers) : InitRuntimeResult :=
  let ret := true
  if !self.ms_hasRuntime then
    let d := self.InitRuntime_discover w verbosePrint a
    -- at least one GPU and one CPU should present
    if 0 = d.agentList.m_vecGPU.length then
      { ret := false, self := d.self, world := d.world, agentList := d.agentList }
    else if 0 = d.agentList.m_vecCPU.length then
      { ret := false, self := d.self, world := d.world, agentList := d.agentList }
    else
      -- choose the first agent from the agent vector
      let self3 := { d.self with ms_gpu := d.agentList.m_vecGPU.headD {},
                                 ms_cpu := d.agentList.m_vecCPU.headD {} }
      -- find all memory region
      let w4 : World :=
        { d.world with
          trace := d.world.trace ++ [Event.hsa_agent_iterate_regions self3.ms_gpu.m_device] }
      let g := hsa_agent_iterate_regions w4 (some self3.ms_gpu) a.gpuRegionsStatus a.gpuRegions
      let self4 := { self3 with ms_gpu := g.2.1.getD self3.ms_gpu }
      let ret4 := d.ret && HsaCheckStatus g.1
      let w5 : World :=
        { g.2.2 with
          trace := g.2.2.trace ++ [Event.hsa_agent_iterate_regions self4.ms_cpu.m_device] }
      let c := hsa_agent_iterate_regions w5 (some self4.ms_cpu) a.cpuRegionsStatus a.cpuRegions
      let self5 := { self4 with ms_cpu := c.2.1.getD self4.ms_cpu }
      let ret5 := ret4 && HsaCheckStatus c.1
      let self6 := { self5 with ms_hasRuntime := true }
      self6.InitRuntime_cacheVersion c.2.2 ret5 d.agentList a
  else
    self.InitRuntime_cacheVersion w ret {} a

/-- Answers of a runtime that initialises and knows one GPU agent, one DSP
agent and no CPU agent. -/
def answersWithoutCpu : InitRuntimeAnswers :=
  { initStatus := 0, shutDownStatus := 0,
    extension := { newTable := 600, supportedStatus := 0, isSupported := true,
                   tableStatus := 0 },
    agents := [sampleGpuAgent, sampleDspAgent], iterateAgentsStatus := 0,
    gpuRegions := [], gpuRegionsStatus := 0, cpuRegions := [], cpuRegionsStatus := 0,
    version := { initStatus := 0, majorStatus := 0, major := 1, minorStatus := 0, minor := 0,
                 shutDownStatus := 0 } }

/-- Answers of a runtime that initialises and knows one GPU agent (with a
kernel argument region 21) and one CPU agent. -/
def answersWithGpuAndCpu : InitRuntimeAnswers :=
  { answersWithoutCpu with
    agents := [sampleGpuAgent, sampleCpuAgent],
    gpuRegions := [(21, { segmentStatus := 0, segment_id := 0, flagsStatus := 0, flags := 1 })] }

/-- A manager before runtime initialisation, with marked agent information. -/
def managerBeforeInit : HSAResourceManager :=
  { ms_gpu := { m_device := 91 }, ms_cpu := { m_device := 92 } }

/-! ## Clean up -/

/-- Answers of the runtime to the destroy and free calls of `CleanUp`: the
status of the call made for the entry at a given position of the signal list,
of the packet information map, of the executable set and of the code object
set (positions in iteration order, from 0). -/
structure CleanUpAnswers where
  hsa_signal_destroy : Nat → Nat
  hsa_memory_free : Nat → Nat
  hsa_executable_destroy : Nat → Nat
  hsa_code_object_destroy : Nat → Nat

/-- The loop of `CleanUp` over `m_signals`, from position `i` with `ret` so
far: an entry with a non-zero handle is passed to `hsa_signal_destroy` and
`ret &= lret` (its handle is then set to 0; the list is cleared after the
loop, so the handles are not kept here). -/
def cleanUpSignals (answers : Nat → Nat) (w : World) (ret : Bool) (i : Nat) :
    List Nat → Bool × World
  | [] => (ret, w)
  | handle :: rest =>
    if 0 ≠ handle then
      let w1 : World := { w with trace := w.trace ++ [Event.hsa_signal_destroy handle] }
      let lret := HsaCheckStatus (answers i)
      cleanUpSignals answers w1 (ret && lret) (i + 1) rest
    else
      cleanUpSignals answers w ret (i + 1) rest

/-- The loop of `CleanUp` over `m_aqlInfos`, from position `j`: `DestroyBuffer`
on the kernel argument buffer of each entry; what it returns is not used (the
map is cleared after the loop, so the emptied buffers are not kept here). -/
def cleanUpBuffers (answers : Nat → Nat) (w : World) (j : Nat) :
    List (Nat × AQLInfo) → World
  | [] => w
  | entry :: rest =>
    let r := entry.2.m_kernArgBuffer.DestroyBuffer w (answers j)
    cleanUpBuffers answers r.world (j + 1) rest

/-- The loop of `CleanUp` over `m_executableSet`, from position `k` with `ret`
so far: each handle is passed to `hsa_executable_destroy`; a failure sets
`ret = false`. -/
def cleanUpExecutables (answers : Nat → Nat) (w : World) (ret : Bool) (k : Nat) :
    List Nat → Bool × World
  | [] => (ret, w)
  | handle :: rest =>
    let w1 : World := { w with trace := w.trace ++ [Event.hsa_executable_destroy handle] }
    let ret1 := if !HsaCheckStatus (answers k) then false else ret
    cleanUpExecutables answers w1 ret1 (k + 1) rest

/-- The loop of `CleanUp` over `m_codeObjSet`, from position `k` with `ret` so
far: each handle is passed to `hsa_code_object_destroy`; a failure sets
`ret = false`. -/
def cleanUpCodeObjects (answers : Nat → Nat) (w : World) (ret : Bool) (k : Nat) :
    List Nat → Bool × World
  | [] => (ret, w)
  | handle :: rest =>
    let w1 : World := { w with trace := w.trace ++ [Event.hsa_code_object_destroy handle] }
    let ret1 := if !HsaCheckStatus (answers k) then false else ret
    cleanUpCodeObjects answers w1 ret1 (k + 1) rest

/-- Method `HSAResourceManager::CleanUp()`. -/
def HSAResourceManager.CleanUp (self : HSAResourceManager) (w : World)
    (a : CleanUpAnswers) : ManagerResult :=
  let ret := true
  -- clean up signals
  let s := cleanUpSignals a.hsa_signal_destroy w ret 0 self.m_signals
  let self1 := { self with m_signals := [] }
  let w2 := cleanUpBuffers a.hsa_memory_free s.2 0 self1.m_aqlInfos
  let self2 := { self1 with m_aqlInfos := [] }
  -- destroy executable
  let e := cleanUpExecutables a.hsa_executable_destroy w2 s.1 0 self2.m_executableSet
  let self3 := { self2 with m_executableSet := [] }
  -- destroy code object
  let c := cleanUpCodeObjects a.hsa_code_object_destroy e.2 e.1 0 self3.m_codeObjSet
  let self4 := { self3 with m_codeObjSet := [] }
  let self5 := { self4 with m_aqlInfos := [] }
  { ret := c.1, self := self5, world := c.2 }

/-- The destroy calls of `CleanUp` for tracked signals: the non-zero handles
of the list, in order. -/
def signalDestroyEvents (m_signals : List Nat) : List Event :=
  (m_signals.filter fun h => decide (h ≠ 0)).map Event.hsa_signal_destroy

/-- The free calls of `CleanUp` for the kernel argument buffers: the non-null
buffer pointers of the map entries, in order. -/
def bufferFreeEvents (m_aqlInfos : List (Nat × AQLInfo)) : List Event :=
  ((m_aqlInfos.map fun e => e.2.m_kernArgBuffer.m_pArgBuffer).filter
    fun p => decide (p ≠ 0)).map Event.hsa_memory_free

/-- Answers of a runtime for which every destroy and free call succeeds. -/
def allSucceed : CleanUpAnswers :=
  { hsa_signal_destroy := fun _ => 0, hsa_memory_free := fun _ => 0,
    hsa_executable_destroy := fun _ => 0, hsa_code_object_destroy := fun _ => 0 }

/-- A manager that tracks two signals (and an entry with handle 0), two
packets, one of them with a kernel argument buffer at 4096, two executables
and one code object. -/
def trackingManager : HSAResourceManager :=
  { ms_hasRuntime := true, ms_pQueue := 3,
    m_signals := [77, 0, 78],
    m_aqlInfos := [(100, { m_completionSignal := 77,
                           m_kernArgBuffer := { m_pArgBuffer := 4096, m_argBufferSize := 256,
                                                m_location := 48 } }),
                   (200, {})],
    m_executableSet := [31, 32],
    m_codeObjSet := [41] }

/-- Answers of a runtime for which only the `hsa_memory_free` calls fail. -/
def onlyFreeFails : CleanUpAnswers :=
  { allSucceed with hsa_memory_free := fun _ => 4096 }

/-- Answers of a runtime for which only the destroy call of the third signal
entry fails. -/
def onlySignalFails : CleanUpAnswers :=
  { allSucceed with hsa_signal_destroy := fun i => if i = 2 then 4096 else 0 }

/-- Answers of a runtime for which only the destroy call of the first
executable fails. -/
def onlyExecutableFails : CleanUpAnswers :=
  { allSucceed with hsa_executable_destroy := fun k => if k = 0 then 4096 else 0 }

/-- Answers of a runtime for which only the destroy call of the first code
object fails. -/
def onlyCodeObjectFails : CleanUpAnswers :=
  { allSucceed with hsa_code_object_destroy := fun k => if k = 0 then 4096 else 0 }

/-! ## Dispatch -/

/-- The mask `queueSize - 1` computed in `uint32_t` is `queueSize - 1` for
every queue size from 1 up. -/
theorem queueMask_eq_pred (queueSize : Nat) (h1 : 1 ≤ queueSize) (h2 : queueSize < 2 ^ 32) :
    (queueSize + (2 ^ 32 - 1)) % 2 ^ 32 = queueSize - 1 := by
  omega

/-- Normal form of `Dispatch` on a manager with a queue. -/
theorem Dispatch_eq (self : HSAResourceManager) (w : World) (aqlAddr : Nat)
    (aql : hsa_kernel_dispatch_packet_t) (hq : self.ms_pQueue ≠ 0) :
    self.Dispatch w aqlAddr aql =
      { ret := true,
        self := { self with m_aqlInfos := (aqlInfoIndex self.m_aqlInfos aqlAddr).2 },
        world :=
          { w with
            queues := fun p =>
              if p = self.ms_pQueue then
                { base_address := fun s =>
                    if s = (w.queues self.ms_pQueue).write_index &&&
                        (((w.queues self.ms_pQueue).size + (2 ^ 32 - 1)) % 2 ^ 32) then
                      { aql with kernarg_address := registeredKernarg self aqlAddr aql }
                    else (w.queues self.ms_pQueue).base_address s,
                  doorbell_signal := (w.queues self.ms_pQueue).doorbell_signal,
                  size := (w.queues self.ms_pQueue).size,
                  write_index := ((w.queues self.ms_pQueue).write_index + 1) % 2 ^ 64 }
              else w.queues p,
            trace := w.trace ++
              [Event.hsa_queue_load_write_index_relaxed self.ms_pQueue,
               Event.queue_packet_store self.ms_pQueue
                 ((w.queues self.ms_pQueue).write_index &&&
                   (((w.queues self.ms_pQueue).size + (2 ^ 32 - 1)) % 2 ^ 32))
                 { aql with kernarg_address := registeredKernarg self aqlAddr aql },
               Event.hsa_queue_store_write_index_relaxed self.ms_pQueue
                 (((w.queues self.ms_pQueue).write_index + 1) % 2 ^ 64),
               Event.hsa_signal_store_release (w.queues self.ms_pQueue).doorbell_signal
                 (static_cast_hsa_signal_value_t (w.queues self.ms_pQueue).write_index)] },
        aql := { aql with kernarg_address := registeredKernarg self aqlAddr aql } } := by
  have h0 : ¬ (0 = self.ms_pQueue) := fun h => hq h.symm
  unfold HSAResourceManager.Dispatch HSAResourceManager.RegisterKernelArgsBuffer
    registeredKernarg aqlInfoFind aqlInfoIndex HSAKernelArgBuffer.GetArgBufferPointer
  simp only [if_neg h0]
  cases hl : self.m_aqlInfos.lookup aqlAddr with
  | none =>
    have hp : ¬ (0 ≠ ({} : AQLInfo).m_kernArgBuffer.m_pArgBuffer ∧ 0 = aql.kernarg_address) :=
      fun h => h.1 rfl
    simp only [if_neg hp]
  | some info =>
    by_cases hc : 0 ≠ info.m_kernArgBuffer.m_pArgBuffer ∧ 0 = aql.kernarg_address
    · have hc2 : info.m_kernArgBuffer.m_pArgBuffer ≠ 0 ∧ aql.kernarg_address = 0 :=
        ⟨fun h => hc.1 h.symm, hc.2.symm⟩
      have hp : ¬ (0 = info.m_kernArgBuffer.m_pArgBuffer) := hc.1
      simp only [hl, if_pos hc, if_pos hc2, if_neg hp]
    · have hc2 : ¬ (info.m_kernArgBuffer.m_pArgBuffer ≠ 0 ∧ aql.kernarg_address = 0) :=
        fun h => hc ⟨fun e => h.1 e.symm, h.2.symm⟩
      simp only [hl, if_neg hc, if_neg hc2]

/-- Claim C1. For a manager with a queue (non-null), `Dispatch` stores the
packet, carrying the kernel argument address left by the registration step, in
the slot `index & (queueSize - 1)` of the packet array of the queue (the mask
is computed in `uint32_t`, and is `queueSize - 1` for every size from 1 up),
every other slot of the array keeps its packet, and the packet of the caller
is that same packet. -/
theorem Dispatch_stores_packet_in_ring_slot (self : HSAResourceManager) (w : World)
    (aqlAddr : Nat) (aql : hsa_kernel_dispatch_packet_t) (hq : self.Queue ≠ 0) :
    ((self.Dispatch w aqlAddr aql).world.queues self.Queue).base_address
        ((w.queues self.Queue).write_index &&&
          (((w.queues self.Queue).size + (2 ^ 32 - 1)) % 2 ^ 32))
      = { aql with kernarg_address := registeredKernarg self aqlAddr aql } ∧
    (∀ s, s ≠ ((w.queues self.Queue).write_index &&&
          (((w.queues self.Queue).size + (2 ^ 32 - 1)) % 2 ^ 32)) →
      ((self.Dispatch w aqlAddr aql).world.queues self.Queue).base_address s
        = (w.queues self.Queue).base_address s) ∧
    (self.Dispatch w aqlAddr aql).aql
      = { aql with kernarg_address := registeredKernarg self aqlAddr aql } ∧
    (1 ≤ (w.queues self.Queue).size → (w.queues self.Queue).size < 2 ^ 32 →
      ((w.queues self.Queue).write_index &&&
          (((w.queues self.Queue).size + (2 ^ 32 - 1)) % 2 ^ 32))
        = ((w.queues self.Queue).write_index &&& ((w.queues self.Queue).size - 1))) := by
  have hq0 : self.ms_pQueue ≠ 0 := hq
  rw [Dispatch_eq self w aqlAddr aql hq0]
  unfold HSAResourceManager.Queue
  refine ⟨?_, ?_, rfl, ?_⟩
  · simp only [if_true]
  · intro s hs
    simp only [if_true, if_neg hs]
  · intro h1 h2
    rw [queueMask_eq_pred _ h1 h2]

/-- Evaluation of C1 on `sampleManager`: write index 5 and size 4 give slot 1,
which receives the packet with the registered address 4096; slot 2 is as before. -/
theorem Dispatch_stores_packet_in_ring_slot_witness :
    sampleManager.Queue ≠ 0 ∧
    ((sampleManager.Dispatch sampleWorld 100 samplePacket).world.queues 3).base_address 1
      = { samplePacket with kernarg_address := 4096 } ∧
    ((sampleManager.Dispatch sampleWorld 100 samplePacket).world.queues 3).base_address 2
      = zeroPacket ∧
    (5 &&& ((4 + (2 ^ 32 - 1)) % 2 ^ 32)) = (5 &&& (4 - 1)) :=
  ⟨by decide,
   (Dispatch_stores_packet_in_ring_slot sampleManager sampleWorld 100 samplePacket
      (by decide)).1,
   (Dispatch_stores_packet_in_ring_slot sampleManager sampleWorld 100 samplePacket
      (by decide)).2.1 2 (by decide),
   (Dispatch_stores_packet_in_ring_slot sampleManager sampleWorld 100 samplePacket
      (by decide)).2.2.2 (by decide) (by decide)⟩

/-- Claim C2. For a manager with a queue (non-null) whose write index is
`index`, `Dispatch` returns true, leaves the write index at `index + 1` (a
`uint64_t` increment: `index + 1` itself below `2 ^ 64`), and adds to the
events exactly: the load of the write index, the packet store, the store of
the write index `index + 1`, and then one doorbell store of the value `index`
(converted to the signal value type, which keeps its 64 bits) to the doorbell
signal of the queue. -/
theorem Dispatch_increments_index_and_rings_doorbell (self : HSAResourceManager) (w : World)
    (aqlAddr : Nat) (aql : hsa_kernel_dispatch_packet_t) (hq : self.Queue ≠ 0) :
    (self.Dispatch w aqlAddr aql).ret = true ∧
    ((self.Dispatch w aqlAddr aql).world.queues self.Queue).write_index
      = ((w.queues self.Queue).write_index + 1) % 2 ^ 64 ∧
    ((w.queues self.Queue).write_index + 1 < 2 ^ 64 →
      ((self.Dispatch w aqlAddr aql).world.queues self.Queue).write_index
        = (w.queues self.Queue).write_index + 1) ∧
    (self.Dispatch w aqlAddr aql).world.trace = w.trace ++
      [Event.hsa_queue_load_write_index_relaxed self.Queue,
       Event.queue_packet_store self.Queue
         ((w.queues self.Queue).write_index &&&
           (((w.queues self.Queue).size + (2 ^ 32 - 1)) % 2 ^ 32))
         (self.Dispatch w aqlAddr aql).aql,
       Event.hsa_queue_store_write_index_relaxed self.Queue
         (((w.queues self.Queue).write_index + 1) % 2 ^ 64),
       Event.hsa_signal_store_release (w.queues self.Queue).doorbell_signal
         (static_cast_hsa_signal_value_t (w.queues self.Queue).write_index)] ∧
    ((w.queues self.Queue).write_index < 2 ^ 64 →
      static_cast_hsa_signal_value_t (w.queues self.Queue).write_index % 2 ^ 64
        = ((w.queues self.Queue).write_index : Int)) ∧
    ((w.queues self.Queue).write_index < 2 ^ 63 →
      static_cast_hsa_signal_value_t (w.queues self.Queue).write_index
        = ((w.queues self.Queue).write_index : Int)) := by
  have hq0 : self.ms_pQueue ≠ 0 := hq
  rw [Dispatch_eq self w aqlAddr aql hq0]
  unfold HSAResourceManager.Queue
  refine ⟨rfl, ?_, ?_, rfl, ?_, ?_⟩
  · simp only [if_true]
  · intro h
    simp only [if_true]
    exact Nat.mod_eq_of_lt h
  · intro h
    unfold static_cast_hsa_signal_value_t
    rw [Nat.mod_eq_of_lt h]
    split_ifs with h63
    · omega
    · omega
  · intro h
    unfold static_cast_hsa_signal_value_t
    have h64 : (w.queues self.ms_pQueue).write_index < 2 ^ 64 := by omega
    rw [Nat.mod_eq_of_lt h64, if_pos h]

/-- Evaluation of C2 on `sampleManager`: the write index goes from 5 to 6 and
the doorbell signal 9 receives 5 as the last of the four events. -/
theorem Dispatch_increments_index_and_rings_doorbell_witness :
    sampleManager.Queue ≠ 0 ∧
    (sampleManager.Dispatch sampleWorld 100 samplePacket).ret = true ∧
    ((sampleManager.Dispatch sampleWorld 100 samplePacket).world.queues 3).write_index = 6 ∧
    (sampleManager.Dispatch sampleWorld 100 samplePacket).world.trace =
      [Event.hsa_queue_load_write_index_relaxed 3,
       Event.queue_packet_store 3 1 { samplePacket with kernarg_address := 4096 },
       Event.hsa_queue_store_write_index_relaxed 3 6,
       Event.hsa_signal_store_release 9 5] :=
  ⟨by decide,
   (Dispatch_increments_index_and_rings_doorbell sampleManager sampleWorld 100 samplePacket
      (by decide)).1,
   (Dispatch_increments_index_and_rings_doorbell sampleManager sampleWorld 100 samplePacket
      (by decide)).2.2.1 (by decide),
   (Dispatch_increments_index_and_rings_doorbell sampleManager sampleWorld 100 samplePacket
      (by decide)).2.2.2.1⟩

/-- Claim C3. With no queue set (`Queue()` is null), `Dispatch` returns false
and changes nothing: the packet of the caller, the manager (so the map of
packet information, in which the packet has an entry after the call only if it
had one before, the tracked signals and the queue pointer) and the world. -/
theorem Dispatch_without_queue_changes_nothing (self : HSAResourceManager) (w : World)
    (aqlAddr : Nat) (aql : hsa_kernel_dispatch_packet_t) (hq : self.Queue = 0) :
    (self.Dispatch w aqlAddr aql).ret = false ∧
    (self.Dispatch w aqlAddr aql).aql = aql ∧
    (self.Dispatch w aqlAddr aql).self.m_aqlInfos = self.m_aqlInfos ∧
    aqlInfoFind (self.Dispatch w aqlAddr aql).self.m_aqlInfos aqlAddr
      = aqlInfoFind self.m_aqlInfos aqlAddr ∧
    (self.Dispatch w aqlAddr aql).self.m_signals = self.m_signals ∧
    (self.Dispatch w aqlAddr aql).self.Queue = self.Queue ∧
    (self.Dispatch w aqlAddr aql).self = self ∧
    (self.Dispatch w aqlAddr aql).world = w := by
  have h0 : 0 = self.ms_pQueue := hq.symm
  unfold HSAResourceManager.Dispatch
  rw [if_pos h0]
  exact ⟨rfl, rfl, rfl, rfl, rfl, rfl, rfl, rfl⟩

/-- Evaluation of C3 on `sampleManagerNoQueue` with a packet (at address 200)
that has no entry in the map: after the call it still has none. -/
theorem Dispatch_without_queue_changes_nothing_witness :
    sampleManagerNoQueue.Queue = 0 ∧
    (sampleManagerNoQueue.Dispatch sampleWorld 200 samplePacket).ret = false ∧
    aqlInfoFind (sampleManagerNoQueue.Dispatch sampleWorld 200 samplePacket).self.m_aqlInfos 200
      = none :=
  ⟨by decide,
   (Dispatch_without_queue_changes_nothing sampleManagerNoQueue sampleWorld 200 samplePacket
      (by decide)).1,
   (Dispatch_without_queue_changes_nothing sampleManagerNoQueue sampleWorld 200 samplePacket
      (by decide)).2.2.2.1.trans (by decide)⟩

/-! ## The kernel argument buffer -/

/-- The byte that `memset` writes for `static_cast<int>(v)` is `v` modulo 256. -/
theorem static_cast_int_byte (v : Nat) : (static_cast_int v % 256).toNat = v % 256 := by
  unfold static_cast_int
  split_ifs with h <;> omega

/-- Case analysis of `AppendKernelArgs`: the three rejections and the accepting path. -/
theorem AppendKernelArgs_cases (self : HSAKernelArgBuffer) (w : World) (pAddr size : Nat) :
    ((self.m_pArgBuffer = 0 ∨ pAddr = 0 ∨
        (self.m_location + size) % 2 ^ 64 > self.m_argBufferSize) ∧
      self.AppendKernelArgs w pAddr size = { ret := false, self := self, world := w }) ∨
    ((self.m_pArgBuffer ≠ 0 ∧ pAddr ≠ 0 ∧
        (self.m_location + size) % 2 ^ 64 ≤ self.m_argBufferSize) ∧
      self.AppendKernelArgs w pAddr size =
        { ret := true,
          self := { self with m_location := (self.m_location + size) % 2 ^ 64 },
          world := { w with
            mem := memcpy w.mem ((self.m_pArgBuffer + self.m_location) % 2 ^ 64) pAddr
                     size } }) := by
  unfold HSAKernelArgBuffer.AppendKernelArgs
  by_cases h1 : 0 = self.m_pArgBuffer
  · left
    exact ⟨Or.inl h1.symm, by rw [if_pos h1]⟩
  · by_cases h2 : 0 = pAddr
    · left
      exact ⟨Or.inr (Or.inl h2.symm), by rw [if_neg h1, if_pos h2]⟩
    · by_cases h3 : (self.m_location + size) % 2 ^ 64 > self.m_argBufferSize
      · left
        exact ⟨Or.inr (Or.inr h3), by rw [if_neg h1, if_neg h2, if_pos h3]⟩
      · right
        exact ⟨⟨fun h => h1 h.symm, fun h => h2 h.symm, Nat.le_of_not_gt h3⟩,
          by rw [if_neg h1, if_neg h2, if_neg h3]⟩

/-- What `AppendKernelArgs` does when `m_location + size` does not wrap: it
returns true exactly when a buffer is allocated, `pAddr` is not null and
`m_location + size <= m_argBufferSize`; on true the `size` bytes at `pAddr` are
at buffer offsets `[m_location, m_location + size)` (from the 64-bit address
`m_pArgBuffer + m_location`), every other byte of memory is as before and
`m_location` has grown by `size`; on false nothing changes. -/
theorem AppendKernelArgs_of_no_wrap (self : HSAKernelArgBuffer) (w : World)
    (pAddr size : Nat) (hfit : self.m_location + size < 2 ^ 64) :
    ((self.AppendKernelArgs w pAddr size).ret = true ↔
      (self.m_pArgBuffer ≠ 0 ∧ pAddr ≠ 0 ∧
        self.m_location + size ≤ self.m_argBufferSize)) ∧
    ((self.AppendKernelArgs w pAddr size).ret = true →
      (∀ i, i < size →
        (self.AppendKernelArgs w pAddr size).world.mem
            ((self.m_pArgBuffer + self.m_location) % 2 ^ 64 + i)
          = w.mem (pAddr + i)) ∧
      (∀ a, ¬ ((self.m_pArgBuffer + self.m_location) % 2 ^ 64 ≤ a ∧
              a < (self.m_pArgBuffer + self.m_location) % 2 ^ 64 + size) →
        (self.AppendKernelArgs w pAddr size).world.mem a = w.mem a) ∧
      (self.AppendKernelArgs w pAddr size).self.m_location = self.m_location + size ∧
      (self.AppendKernelArgs w pAddr size).self.m_argBufferSize = self.m_argBufferSize ∧
      (self.AppendKernelArgs w pAddr size).self.m_pArgBuffer = self.m_pArgBuffer) ∧
    ((self.AppendKernelArgs w pAddr size).ret = false →
      (self.AppendKernelArgs w pAddr size).self = self ∧
      (self.AppendKernelArgs w pAddr size).world = w) := by
  have hmod : (self.m_location + size) % 2 ^ 64 = self.m_location + size :=
    Nat.mod_eq_of_lt hfit
  rcases AppendKernelArgs_cases self w pAddr size with ⟨hc, he⟩ | ⟨hc, he⟩
  · rw [he]
    refine ⟨⟨fun h => (by cases h), fun h => ?_⟩, fun h => (by cases h), fun _ => ⟨rfl, rfl⟩⟩
    rw [hmod] at hc
    rcases hc with g | g | g
    · exact absurd g h.1
    · exact absurd g h.2.1
    · exact absurd h.2.2 (Nat.not_le_of_gt g)
  · rw [he]
    rw [hmod] at hc
    refine ⟨⟨fun _ => hc, fun _ => rfl⟩, fun _ => ⟨?_, ?_, hmod, rfl, rfl⟩,
      fun h => (by cases h)⟩
    · intro i hi
      show memcpy w.mem ((self.m_pArgBuffer + self.m_location) % 2 ^ 64) pAddr size _ = _
      unfold memcpy
      have hr : (self.m_pArgBuffer + self.m_location) % 2 ^ 64
            ≤ (self.m_pArgBuffer + self.m_location) % 2 ^ 64 + i ∧
          (self.m_pArgBuffer + self.m_location) % 2 ^ 64 + i
            < (self.m_pArgBuffer + self.m_location) % 2 ^ 64 + size :=
        ⟨Nat.le_add_right _ _, Nat.add_lt_add_left hi _⟩
      rw [if_pos hr]
      congr 1
      rw [Nat.add_sub_cancel_left]
    · intro a ha
      show memcpy w.mem ((self.m_pArgBuffer + self.m_location) % 2 ^ 64) pAddr size a = _
      unfold memcpy
      rw [if_neg ha]

/-- Claim C4, evaluated where it fails. On a 256-byte buffer whose location is
`2 ^ 64 - 4`, `AppendKernelArgs(pAddr, 8)` with a non-null `pAddr` returns true
although `m_location + 8` exceeds the buffer size: the `std::size_t` sum wraps
to 4, passes the size check, and the location after the call is 4 (it did not
grow by 8). -/
theorem AppendKernelArgs_accepts_wrapped_sum :
    (wrappedBuffer.AppendKernelArgs sampleWorld 8192 8).ret = true ∧
    ¬ (wrappedBuffer.m_location + 8 ≤ wrappedBuffer.m_argBufferSize) ∧
    (wrappedBuffer.AppendKernelArgs sampleWorld 8192 8).self.m_location = 4 ∧
    (wrappedBuffer.AppendKernelArgs sampleWorld 8192 8).self.m_location
      ≠ wrappedBuffer.m_location + 8 := by
  decide

/-- Where the accepted append of `wrappedBuffer` writes: the destination
pointer `4096 + (2 ^ 64 - 4)` wraps to 4092, so the eight bytes of the argument
go to addresses 4092 to 4099, four of them before the buffer at 4096, and the
byte at 4100 is as before. -/
theorem AppendKernelArgs_wrapped_write_before_buffer :
    (wrappedBuffer.m_pArgBuffer + wrappedBuffer.m_location) % 2 ^ 64 = 4092 ∧
    4092 < wrappedBuffer.m_pArgBuffer ∧
    (wrappedBuffer.AppendKernelArgs patternWorld 8192 8).world.mem 4092
      = patternWorld.mem 8192 ∧
    (wrappedBuffer.AppendKernelArgs patternWorld 8192 8).world.mem 4099
      = patternWorld.mem 8199 ∧
    patternWorld.mem 4092 ≠ patternWorld.mem 8192 ∧
    (wrappedBuffer.AppendKernelArgs patternWorld 8192 8).world.mem 4100
      = patternWorld.mem 4100 := by
  decide

/-- Layout of a run of appends when the sizes do not wrap: if every call
returned true, the calls started at consecutive offsets from the first
location and the location at the end is the first location plus all sizes. -/
theorem appendKernelArgsSeq_layout (args : List (Nat × Nat)) :
    ∀ (self : HSAKernelArgBuffer) (w : World),
      self.m_location + (args.map Prod.snd).sum < 2 ^ 64 →
      (∀ e ∈ (appendKernelArgsSeq self w args).1, e.2 = true) →
      (appendKernelArgsSeq self w args).1.map Prod.fst
          = argOffsets self.m_location (args.map Prod.snd) ∧
        (appendKernelArgsSeq self w args).2.1.m_location
          = self.m_location + (args.map Prod.snd).sum := by
  induction args with
  | nil =>
    intro self w _ _
    exact ⟨rfl, rfl⟩
  | cons a rest ih =>
    intro self w hfit hall
    obtain ⟨pAddr, size⟩ := a
    simp only [List.map_cons, List.sum_cons] at hfit ⊢
    have hfit1 : self.m_location + size < 2 ^ 64 := by omega
    have hspec := AppendKernelArgs_of_no_wrap self w pAddr size hfit1
    have hret : (self.AppendKernelArgs w pAddr size).ret = true :=
      hall (self.m_location, (self.AppendKernelArgs w pAddr size).ret)
        (by simp [appendKernelArgsSeq])
    have hloc := (hspec.2.1 hret).2.2.1
    have hih := ih (self.AppendKernelArgs w pAddr size).self
      (self.AppendKernelArgs w pAddr size).world (by rw [hloc]; omega)
      (fun e he => hall e (by simp [appendKernelArgsSeq, he]))
    rw [hloc] at hih
    refine ⟨?_, ?_⟩
    · simp only [appendKernelArgsSeq, List.map_cons, argOffsets]
      rw [hih.1]
    · simp only [appendKernelArgsSeq]
      rw [hih.2]
      omega

/-- The matrix multiplication sample on a 256-byte buffer allocated with the
default offset 48: the five arguments of 8, 8, 8, 4 and 4 bytes start at
offsets 48, 56, 64, 72 and 76, every call returns true, and the next free
location is 80. -/
theorem matrixMul_kernarg_layout :
    (({} : HSAKernelArgBuffer).AllocateBuffer sampleGpu sampleWorld sampleAllocateReply 256
        defaultOffsetSize defaultClearedValue).ret = true ∧
    (appendKernelArgsSeq
        (({} : HSAKernelArgBuffer).AllocateBuffer sampleGpu sampleWorld sampleAllocateReply 256
          defaultOffsetSize defaultClearedValue).self
        (({} : HSAKernelArgBuffer).AllocateBuffer sampleGpu sampleWorld sampleAllocateReply 256
          defaultOffsetSize defaultClearedValue).world matrixMulArgs).1
      = [(48, true), (56, true), (64, true), (72, true), (76, true)] ∧
    (appendKernelArgsSeq
        (({} : HSAKernelArgBuffer).AllocateBuffer sampleGpu sampleWorld sampleAllocateReply 256
          defaultOffsetSize defaultClearedValue).self
        (({} : HSAKernelArgBuffer).AllocateBuffer sampleGpu sampleWorld sampleAllocateReply 256
          defaultOffsetSize defaultClearedValue).world matrixMulArgs).2.1.m_location = 80 := by
  decide

/-- Claim C5, evaluated where it fails. A fresh buffer, `AllocateBuffer(256,
2 ^ 64 - 4)` answered with success, then `AppendKernelArgs(pAddr, 8)`: both
calls return true, the argument starts at offset `2 ^ 64 - 4`, which is not
inside the 256-byte buffer, and the next free location is 4, not
`offsetSize + 8`. -/
theorem kernarg_layout_breaks_on_wrapped_offset :
    (({} : HSAKernelArgBuffer).AllocateBuffer sampleGpu sampleWorld sampleAllocateReply 256
        (2 ^ 64 - 4) defaultClearedValue).ret = true ∧
    (appendKernelArgsSeq
        (({} : HSAKernelArgBuffer).AllocateBuffer sampleGpu sampleWorld sampleAllocateReply 256
          (2 ^ 64 - 4) defaultClearedValue).self
        (({} : HSAKernelArgBuffer).AllocateBuffer sampleGpu sampleWorld sampleAllocateReply 256
          (2 ^ 64 - 4) defaultClearedValue).world [(8192, 8)]).1
      = [(2 ^ 64 - 4, true)] ∧
    ¬ (2 ^ 64 - 4 < 256) ∧
    (appendKernelArgsSeq
        (({} : HSAKernelArgBuffer).AllocateBuffer sampleGpu sampleWorld sampleAllocateReply 256
          (2 ^ 64 - 4) defaultClearedValue).self
        (({} : HSAKernelArgBuffer).AllocateBuffer sampleGpu sampleWorld sampleAllocateReply 256
          (2 ^ 64 - 4) defaultClearedValue).world [(8192, 8)]).2.1.m_location = 4 ∧
    (4 : Nat) ≠ (2 ^ 64 - 4) + 8 := by
  decide

/-- The allocation succeeds (`AllocateSysMemory` returns a non-null pointer)
exactly when the GPU agent has a kernel argument region and the runtime
answers success with a non-null pointer. -/
theorem AllocateSysMemory_ne_null_iff (ms_gpu : AgentInfo) (w : World) (size : Nat)
    (reply : AllocateReply) :
    (AllocateSysMemory ms_gpu w size reply).ptr ≠ 0 ↔
      (ms_gpu.kernargRegion ≠ 0 ∧ reply.status = HSA_STATUS_SUCCESS ∧ reply.pBuffer ≠ 0) := by
  unfold AllocateSysMemory HsaCheckStatus
  by_cases h1 : 0 = ms_gpu.kernargRegion
  · rw [if_pos h1]
    exact ⟨fun h => absurd rfl h, fun h => absurd h1.symm h.1⟩
  · rw [if_neg h1]
    by_cases h2 : HSA_STATUS_SUCCESS = reply.status
    · simp only [if_pos h2, if_true]
      exact ⟨fun h => ⟨fun e => h1 e.symm, h2.symm, h⟩, fun h => h.2.2⟩
    · simp only [if_neg h2, Bool.false_eq_true, if_false]
      exact ⟨fun h => absurd rfl h, fun h => absurd h.2.1.symm h2⟩

/-- Normal form of `AllocateBuffer` on a buffer with no allocation when
`AllocateSysMemory` returns a non-null pointer. -/
theorem AllocateBuffer_eq_of_empty (self : HSAKernelArgBuffer) (ms_gpu : AgentInfo)
    (w : World) (reply : AllocateReply) (bufSize offsetSize clearedValue : Nat)
    (hnull : self.m_pArgBuffer = 0)
    (halloc : (AllocateSysMemory ms_gpu w bufSize reply).ptr ≠ 0) :
    self.AllocateBuffer ms_gpu w reply bufSize offsetSize clearedValue =
      { ret := true,
        self := { m_pArgBuffer := (AllocateSysMemory ms_gpu w bufSize reply).ptr,
                  m_argBufferSize := bufSize,
                  m_location := (self.m_location + offsetSize) % 2 ^ 64 },
        world := { (AllocateSysMemory ms_gpu w bufSize reply).world with
          mem := memset (AllocateSysMemory ms_gpu w bufSize reply).world.mem
                   (AllocateSysMemory ms_gpu w bufSize reply).ptr
                   (static_cast_int clearedValue) bufSize } } := by
  have h0 : 0 = self.m_pArgBuffer := hnull.symm
  have h1 : ¬ (0 = (AllocateSysMemory ms_gpu w bufSize reply).ptr) := fun h => halloc h.symm
  unfold HSAKernelArgBuffer.AllocateBuffer
  simp only [if_pos h0, if_neg h1]

/-- Claim C6. On a buffer with no allocation and location 0, when the
allocation of `bufSize` bytes succeeds (`AllocateSysMemory` returns a non-null
pointer), `AllocateBuffer(bufSize, offsetSize, clearedValue)` returns true,
records the pointer and the size `bufSize`, leaves each of the `bufSize` bytes
of the buffer equal to `clearedValue % 256` and every byte outside it as
before, and sets the location to `offsetSize`; with the default arguments the
bytes are 0 and the location is `6 * 8 = 48`. -/
theorem AllocateBuffer_on_empty_buffer (self : HSAKernelArgBuffer) (ms_gpu : AgentInfo)
    (w : World) (reply : AllocateReply) (bufSize offsetSize clearedValue : Nat)
    (hnull : self.m_pArgBuffer = 0) (hloc : self.m_location = 0)
    (halloc : (AllocateSysMemory ms_gpu w bufSize reply).ptr ≠ 0)
    (hoff : offsetSize < 2 ^ 64) :
    (self.AllocateBuffer ms_gpu w reply bufSize offsetSize clearedValue).ret = true ∧
    (self.AllocateBuffer ms_gpu w reply bufSize offsetSize clearedValue).self.m_argBufferSize
      = bufSize ∧
    (self.AllocateBuffer ms_gpu w reply bufSize offsetSize clearedValue).self.m_pArgBuffer
      = (AllocateSysMemory ms_gpu w bufSize reply).ptr ∧
    (∀ i, i < bufSize →
      (self.AllocateBuffer ms_gpu w reply bufSize offsetSize clearedValue).world.mem
          ((AllocateSysMemory ms_gpu w bufSize reply).ptr + i) = clearedValue % 256) ∧
    (∀ a, ¬ ((AllocateSysMemory ms_gpu w bufSize reply).ptr ≤ a ∧
            a < (AllocateSysMemory ms_gpu w bufSize reply).ptr + bufSize) →
      (self.AllocateBuffer ms_gpu w reply bufSize offsetSize clearedValue).world.mem a
        = w.mem a) ∧
    (self.AllocateBuffer ms_gpu w reply bufSize offsetSize clearedValue).self.m_location
      = offsetSize ∧
    defaultClearedValue % 256 = 0 ∧ defaultOffsetSize = 6 * 8 ∧ defaultOffsetSize = 48 := by
  have hmem : (AllocateSysMemory ms_gpu w bufSize reply).world.mem = w.mem := by
    unfold AllocateSysMemory
    split_ifs <;> rfl
  rw [AllocateBuffer_eq_of_empty self ms_gpu w reply bufSize offsetSize clearedValue
    hnull halloc]
  refine ⟨rfl, rfl, rfl, ?_, ?_, ?_, rfl, rfl, rfl⟩
  · intro i hi
    show memset _ _ _ _ _ = _
    unfold memset
    rw [if_pos ⟨Nat.le_add_right _ _, Nat.add_lt_add_left hi _⟩]
    exact static_cast_int_byte clearedValue
  · intro a ha
    show memset _ _ _ _ _ = _
    unfold memset
    rw [if_neg ha, hmem]
  · show (self.m_location + offsetSize) % 2 ^ 64 = offsetSize
    rw [hloc, Nat.zero_add]
    exact Nat.mod_eq_of_lt hoff

/-- Evaluation of C6: a fresh buffer, 256 bytes at 4096, cleared with 511
(byte 255), offset 48. -/
theorem AllocateBuffer_on_empty_buffer_witness :
    ({} : HSAKernelArgBuffer).m_pArgBuffer = 0 ∧ ({} : HSAKernelArgBuffer).m_location = 0 ∧
    (AllocateSysMemory sampleGpu sampleWorld 256 sampleAllocateReply).ptr ≠ 0 ∧
    (({} : HSAKernelArgBuffer).AllocateBuffer sampleGpu sampleWorld sampleAllocateReply 256
        48 511).ret = true ∧
    (({} : HSAKernelArgBuffer).AllocateBuffer sampleGpu sampleWorld sampleAllocateReply 256
        48 511).world.mem (4096 + 255) = 255 ∧
    (({} : HSAKernelArgBuffer).AllocateBuffer sampleGpu sampleWorld sampleAllocateReply 256
        48 511).self.m_location = 48 :=
  ⟨rfl, rfl, by decide,
   (AllocateBuffer_on_empty_buffer {} sampleGpu sampleWorld sampleAllocateReply 256 48 511
      rfl rfl (by decide) (by decide)).1,
   (AllocateBuffer_on_empty_buffer {} sampleGpu sampleWorld sampleAllocateReply 256 48 511
      rfl rfl (by decide) (by decide)).2.2.2.1 255 (by decide),
   (AllocateBuffer_on_empty_buffer {} sampleGpu sampleWorld sampleAllocateReply 256 48 511
      rfl rfl (by decide) (by decide)).2.2.2.2.2.1⟩

/-- Claim C7. On a buffer that is already allocated, `AllocateBuffer` returns
false for every `bufSize`, `offsetSize`, `clearedValue` and runtime answer,
makes no allocation request (no new event), and leaves the pointer, the size,
the location and all of memory as they were. -/
theorem AllocateBuffer_when_allocated (self : HSAKernelArgBuffer) (ms_gpu : AgentInfo)
    (w : World) (reply : AllocateReply) (bufSize offsetSize clearedValue : Nat)
    (halloc : self.m_pArgBuffer ≠ 0) :
    (self.AllocateBuffer ms_gpu w reply bufSize offsetSize clearedValue).ret = false ∧
    (self.AllocateBuffer ms_gpu w reply bufSize offsetSize clearedValue).world.trace
      = w.trace ∧
    (self.AllocateBuffer ms_gpu w reply bufSize offsetSize clearedValue).self.m_pArgBuffer
      = self.m_pArgBuffer ∧
    (self.AllocateBuffer ms_gpu w reply bufSize offsetSize clearedValue).world.mem = w.mem ∧
    (self.AllocateBuffer ms_gpu w reply bufSize offsetSize clearedValue).self.m_argBufferSize
      = self.m_argBufferSize ∧
    (self.AllocateBuffer ms_gpu w reply bufSize offsetSize clearedValue).self.m_location
      = self.m_location ∧
    (self.AllocateBuffer ms_gpu w reply bufSize offsetSize clearedValue).self = self ∧
    (self.AllocateBuffer ms_gpu w reply bufSize offsetSize clearedValue).world = w := by
  have h0 : ¬ (0 = self.m_pArgBuffer) := fun h => halloc h.symm
  unfold HSAKernelArgBuffer.AllocateBuffer
  rw [if_neg h0]
  exact ⟨rfl, rfl, rfl, rfl, rfl, rfl, rfl, rfl⟩

/-- Evaluation of C7 on `sampleBuffer` with a request that the runtime would
have granted. -/
theorem AllocateBuffer_when_allocated_witness :
    sampleBuffer.m_pArgBuffer ≠ 0 ∧
    (sampleBuffer.AllocateBuffer sampleGpu sampleWorld sampleAllocateReply 512 0 0).ret
      = false ∧
    (sampleBuffer.AllocateBuffer sampleGpu sampleWorld sampleAllocateReply 512 0 0).world.trace
      = [] ∧
    (sampleBuffer.AllocateBuffer sampleGpu sampleWorld sampleAllocateReply 512 0 0).self
      = sampleBuffer :=
  ⟨by decide,
   (AllocateBuffer_when_allocated sampleBuffer sampleGpu sampleWorld sampleAllocateReply
      512 0 0 (by decide)).1,
   (AllocateBuffer_when_allocated sampleBuffer sampleGpu sampleWorld sampleAllocateReply
      512 0 0 (by decide)).2.1,
   (AllocateBuffer_when_allocated sampleBuffer sampleGpu sampleWorld sampleAllocateReply
      512 0 0 (by decide)).2.2.2.2.2.2.1⟩

/-- Claim C8. `DestroyBuffer` passes a non-null buffer pointer to the free
call (exactly one `hsa_memory_free` event, and the result of the call is the
checked status) and makes no call for a null pointer (returning true);
whatever the free call answers, the object is left empty (pointer null, size
0, location 0). A second `DestroyBuffer` returns true for every answer, adds
no event and changes nothing. After it `AllocateBuffer` is accepted again:
when the allocation succeeds it returns true with the requested size and the
location `offsetSize`. -/
theorem DestroyBuffer_empties_and_is_idempotent (self : HSAKernelArgBuffer) (w : World)
    (status status2 : Nat) :
    (self.DestroyBuffer w status).self.m_pArgBuffer = 0 ∧
    (self.DestroyBuffer w status).self.m_argBufferSize = 0 ∧
    (self.DestroyBuffer w status).self.m_location = 0 ∧
    (self.m_pArgBuffer ≠ 0 →
      (self.DestroyBuffer w status).world.trace
          = w.trace ++ [Event.hsa_memory_free self.m_pArgBuffer] ∧
      (self.DestroyBuffer w status).ret = HsaCheckStatus status) ∧
    (self.m_pArgBuffer = 0 →
      (self.DestroyBuffer w status).world = w ∧ (self.DestroyBuffer w status).ret = true) ∧
    (self.DestroyBuffer w status).world.mem = w.mem ∧
    ((self.DestroyBuffer w status).self.DestroyBuffer
        (self.DestroyBuffer w status).world status2).ret = true ∧
    ((self.DestroyBuffer w status).self.DestroyBuffer
        (self.DestroyBuffer w status).world status2).self = (self.DestroyBuffer w status).self ∧
    ((self.DestroyBuffer w status).self.DestroyBuffer
        (self.DestroyBuffer w status).world status2).world = (self.DestroyBuffer w status).world ∧
    (∀ (ms_gpu : AgentInfo) (reply : AllocateReply) (bufSize offsetSize clearedValue : Nat),
      (AllocateSysMemory ms_gpu (self.DestroyBuffer w status).world bufSize reply).ptr ≠ 0 →
      offsetSize < 2 ^ 64 →
      ((self.DestroyBuffer w status).self.AllocateBuffer ms_gpu
          (self.DestroyBuffer w status).world reply bufSize offsetSize clearedValue).ret = true ∧
      ((self.DestroyBuffer w status).self.AllocateBuffer ms_gpu
          (self.DestroyBuffer w status).world reply bufSize offsetSize clearedValue).self
        = { m_pArgBuffer :=
              (AllocateSysMemory ms_gpu (self.DestroyBuffer w status).world bufSize reply).ptr,
            m_argBufferSize := bufSize, m_location := offsetSize }) := by
  refine ⟨rfl, rfl, rfl, ?_, ?_, ?_, rfl, rfl, rfl, ?_⟩
  · intro h
    have h0 : ¬ (0 = self.m_pArgBuffer) := fun e => h e.symm
    unfold HSAKernelArgBuffer.DestroyBuffer FreeHSAMemory
    simp only [if_neg h0]
    refine ⟨?_, ?_⟩ <;> first | rfl | trivial
  · intro h
    have h0 : 0 = self.m_pArgBuffer := h.symm
    unfold HSAKernelArgBuffer.DestroyBuffer FreeHSAMemory
    simp only [if_pos h0]
    refine ⟨?_, ?_⟩ <;> first | rfl | trivial
  · unfold HSAKernelArgBuffer.DestroyBuffer FreeHSAMemory
    split_ifs <;> rfl
  · intro ms_gpu reply bufSize offsetSize clearedValue halloc hoff
    rw [AllocateBuffer_eq_of_empty (self.DestroyBuffer w status).self ms_gpu
      (self.DestroyBuffer w status).world reply bufSize offsetSize clearedValue rfl halloc]
    refine ⟨rfl, ?_⟩
    show HSAKernelArgBuffer.mk _ _ ((0 + offsetSize) % 2 ^ 64) = _
    rw [Nat.zero_add, Nat.mod_eq_of_lt hoff]

/-- Evaluation of C8 on `sampleBuffer` with a failing free call: one free
event for 4096, result false, the object empty, and an allocation of 64 bytes
at offset 16 accepted afterwards. -/
theorem DestroyBuffer_empties_and_is_idempotent_witness :
    sampleBuffer.m_pArgBuffer ≠ 0 ∧
    (sampleBuffer.DestroyBuffer sampleWorld 4096).self = {} ∧
    (sampleBuffer.DestroyBuffer sampleWorld 4096).world.trace = [Event.hsa_memory_free 4096] ∧
    (sampleBuffer.DestroyBuffer sampleWorld 4096).ret = false ∧
    ((sampleBuffer.DestroyBuffer sampleWorld 4096).self.AllocateBuffer sampleGpu
        (sampleBuffer.DestroyBuffer sampleWorld 4096).world sampleAllocateReply 64 16 0).ret
      = true :=
  ⟨by decide, rfl,
   ((DestroyBuffer_empties_and_is_idempotent sampleBuffer sampleWorld 4096 0).2.2.2.1
      (by decide)).1,
   ((DestroyBuffer_empties_and_is_idempotent sampleBuffer sampleWorld 4096 0).2.2.2.1
      (by decide)).2,
   ((DestroyBuffer_empties_and_is_idempotent sampleBuffer sampleWorld 4096 0).2.2.2.2.2.2.2.2.2
      sampleGpu sampleAllocateReply 64 16 0 (by decide) (by decide)).1⟩

/-! ## Packets and signals -/

/-- Claim C9, where it fails as stated. `CopyKernelDispatchPacket(p, false, p)`
with the packet at address 100 (completion signal 77) as both arguments
returns true and sets the completion signal of that packet to 0: the source
packet is not left unchanged. -/
theorem CopyKernelDispatchPacket_changes_aliased_source :
    (HSAResourceManager.CopyKernelDispatchPacket samplePackets 100 false 100).1 = true ∧
    (samplePackets 100).completion_signal = 77 ∧
    ((HSAResourceManager.CopyKernelDispatchPacket samplePackets 100 false 100).2
        100).completion_signal = 0 ∧
    (HSAResourceManager.CopyKernelDispatchPacket samplePackets 100 false 100).2 100
      ≠ samplePackets 100 := by
  decide

/-- Claim C9, amended. `CopyKernelDispatchPacket(aqlPacket, bCopySignal,
aqlPacketOut)` returns true for every output packet (a reference, so its
address is not null) and makes every field of `aqlPacketOut` equal to the
field `aqlPacket` had before the call, except that the completion signal
handle of `aqlPacketOut` is 0 when `bCopySignal` is false (with `bCopySignal`
true the completion signal is copied as well). It leaves `aqlPacket` unchanged
when `aqlPacket` and `aqlPacketOut` are different objects or `bCopySignal` is
true, and it changes no packet other than `aqlPacketOut`. -/
theorem CopyKernelDispatchPacket_copies_fields
    (packets : Nat → hsa_kernel_dispatch_packet_t) (aqlPacketAddr : Nat)
    (bCopySignal : Bool) (aqlPacketOutAddr : Nat) (haddr : aqlPacketOutAddr ≠ 0) :
    (HSAResourceManager.CopyKernelDispatchPacket packets aqlPacketAddr bCopySignal
        aqlPacketOutAddr).1 = true ∧
    (HSAResourceManager.CopyKernelDispatchPacket packets aqlPacketAddr bCopySignal
        aqlPacketOutAddr).2 aqlPacketOutAddr
      = { packets aqlPacketAddr with
          completion_signal :=
            if bCopySignal then (packets aqlPacketAddr).completion_signal else 0 } ∧
    (bCopySignal = true →
      (HSAResourceManager.CopyKernelDispatchPacket packets aqlPacketAddr bCopySignal
        aqlPacketOutAddr).2 aqlPacketOutAddr = packets aqlPacketAddr) ∧
    (bCopySignal = false →
      ((HSAResourceManager.CopyKernelDispatchPacket packets aqlPacketAddr bCopySignal
        aqlPacketOutAddr).2 aqlPacketOutAddr).completion_signal = 0) ∧
    (aqlPacketAddr ≠ aqlPacketOutAddr ∨ bCopySignal = true →
      (HSAResourceManager.CopyKernelDispatchPacket packets aqlPacketAddr bCopySignal
        aqlPacketOutAddr).2 aqlPacketAddr = packets aqlPacketAddr) ∧
    (∀ a, a ≠ aqlPacketOutAddr →
      (HSAResourceManager.CopyKernelDispatchPacket packets aqlPacketAddr bCopySignal
        aqlPacketOutAddr).2 a = packets a) := by
  have h0 : ¬ (0 = aqlPacketOutAddr) := fun e => haddr e.symm
  have hother : ∀ a, a ≠ aqlPacketOutAddr →
      (HSAResourceManager.CopyKernelDispatchPacket packets aqlPacketAddr bCopySignal
        aqlPacketOutAddr).2 a = packets a := by
    intro a ha
    unfold HSAResourceManager.CopyKernelDispatchPacket
    cases bCopySignal <;> simp only [if_neg h0, if_neg ha, Bool.not_false, Bool.not_true,
      if_true, Bool.false_eq_true, if_false]
  have hout : (HSAResourceManager.CopyKernelDispatchPacket packets aqlPacketAddr bCopySignal
        aqlPacketOutAddr).2 aqlPacketOutAddr
      = { packets aqlPacketAddr with
          completion_signal :=
            if bCopySignal then (packets aqlPacketAddr).completion_signal else 0 } := by
    unfold HSAResourceManager.CopyKernelDispatchPacket
    cases bCopySignal <;> simp only [if_neg h0, Bool.not_false, Bool.not_true,
      if_true, Bool.false_eq_true, if_false]
  have hret : (HSAResourceManager.CopyKernelDispatchPacket packets aqlPacketAddr bCopySignal
        aqlPacketOutAddr).1 = true := by
    unfold HSAResourceManager.CopyKernelDispatchPacket
    simp only [if_neg h0]
  refine ⟨hret, hout, fun hb => ?_, fun hb => ?_, fun h => ?_, hother⟩
  · rw [hout, hb]
    rfl
  · rw [hout, hb]
    rfl
  · by_cases hne : aqlPacketAddr = aqlPacketOutAddr
    · rcases h with h | h
      · exact absurd hne h
      · subst hne
        rw [hout, h]
        rfl
    · exact hother aqlPacketAddr hne

/-- Evaluation of the amended C9: `samplePacket` at address 100 (completion
signal 77) copied over the zero packet at address 200, with and without the
signal; the source at 100 is as before. -/
theorem CopyKernelDispatchPacket_copies_fields_witness :
    (200 : Nat) ≠ 0 ∧ ((100 : Nat) ≠ 200 ∨ false = true) ∧
    (HSAResourceManager.CopyKernelDispatchPacket samplePackets 100 true 200).2 200
      = samplePacket ∧
    (HSAResourceManager.CopyKernelDispatchPacket samplePackets 100 false 200).2 200
      = { samplePacket with completion_signal := 0 } ∧
    (HSAResourceManager.CopyKernelDispatchPacket samplePackets 100 false 200).2 100
      = samplePacket :=
  ⟨by decide, Or.inl (by decide),
   (CopyKernelDispatchPacket_copies_fields samplePackets 100 true 200 (by decide)).2.2.1 rfl,
   (CopyKernelDispatchPacket_copies_fields samplePackets 100 false 200 (by decide)).2.1,
   (CopyKernelDispatchPacket_copies_fields samplePackets 100 false 200
      (by decide)).2.2.2.2.1 (Or.inl (by decide))⟩

/-- Claim C10. `CreateSignal` makes one `hsa_signal_create` request, with
initial value 1. When the runtime answers success it returns true, `signalOut`
holds the new handle and exactly that handle is appended to the tracked
signals; when the runtime fails it returns false and `signalOut` and the
tracked signals (the whole manager) are as before. -/
theorem CreateSignal_tracks_new_signal (self : HSAResourceManager) (w : World)
    (reply : SignalCreateReply) (signalOut : Nat) :
    (self.CreateSignal w reply signalOut).world.trace
      = w.trace ++ [Event.hsa_signal_create 1 0] ∧
    (reply.status = HSA_STATUS_SUCCESS →
      (self.CreateSignal w reply signalOut).ret = true ∧
      (self.CreateSignal w reply signalOut).signalOut = reply.signal ∧
      (self.CreateSignal w reply signalOut).self.m_signals
        = self.m_signals ++ [reply.signal] ∧
      (self.CreateSignal w reply signalOut).self
        = { self with m_signals := self.m_signals ++ [reply.signal] }) ∧
    (reply.status ≠ HSA_STATUS_SUCCESS →
      (self.CreateSignal w reply signalOut).ret = false ∧
      (self.CreateSignal w reply signalOut).signalOut = signalOut ∧
      (self.CreateSignal w reply signalOut).self.m_signals = self.m_signals ∧
      (self.CreateSignal w reply signalOut).self = self) := by
  refine ⟨?_, ?_, ?_⟩
  · unfold HSAResourceManager.CreateSignal
    split_ifs <;> rfl
  · intro h
    have hc : HsaCheckStatus reply.status = true := by
      unfold HsaCheckStatus
      rw [if_pos h.symm]
    unfold HSAResourceManager.CreateSignal
    simp only [hc, Bool.not_true, Bool.false_eq_true, if_false]
    refine ⟨?_, ?_, ?_, ?_⟩ <;> first | rfl | trivial
  · intro h
    have hc : HsaCheckStatus reply.status = false := by
      unfold HsaCheckStatus
      rw [if_neg (fun e => h e.symm)]
    unfold HSAResourceManager.CreateSignal
    simp only [hc, Bool.not_false, if_true]
    refine ⟨?_, ?_, ?_, ?_⟩ <;> first | rfl | trivial

/-- Evaluation of C10 on `sampleManager` (tracking signal 77): a successful
answer with handle 91 and a failed answer. -/
theorem CreateSignal_tracks_new_signal_witness :
    (0 : Nat) = HSA_STATUS_SUCCESS ∧ (4096 : Nat) ≠ HSA_STATUS_SUCCESS ∧
    (sampleManager.CreateSignal sampleWorld { status := 0, signal := 91 } 5).signalOut = 91 ∧
    (sampleManager.CreateSignal sampleWorld { status := 0, signal := 91 } 5).self.m_signals
      = [77, 91] ∧
    (sampleManager.CreateSignal sampleWorld { status := 4096, signal := 91 } 5).signalOut = 5 ∧
    (sampleManager.CreateSignal sampleWorld { status := 4096, signal := 91 } 5).self.m_signals
      = [77] :=
  ⟨rfl, by decide,
   ((CreateSignal_tracks_new_signal sampleManager sampleWorld { status := 0, signal := 91 } 5).2.1
      rfl).2.1,
   ((CreateSignal_tracks_new_signal sampleManager sampleWorld { status := 0, signal := 91 } 5).2.1
      rfl).2.2.1,
   ((CreateSignal_tracks_new_signal sampleManager sampleWorld
      { status := 4096, signal := 91 } 5).2.2 (by decide)).2.1,
   ((CreateSignal_tracks_new_signal sampleManager sampleWorld
      { status := 4096, signal := 91 } 5).2.2 (by decide)).2.2.1⟩

/-- The manager-level `AppendKernelArgs` returns what the buffer of the packet
returns (a packet without an entry gets a default one, with no buffer). -/
theorem HSAResourceManager_AppendKernelArgs_ret (self : HSAResourceManager) (w : World)
    (pAddr size aqlAddr : Nat) :
    (self.AppendKernelArgs w pAddr size aqlAddr).1
      = ((aqlInfoIndex self.m_aqlInfos aqlAddr).1.m_kernArgBuffer.AppendKernelArgs
          w pAddr size).ret :=
  rfl

/-! ## The queue -/

/-- Normal form of `DestroyQueue` with no queue set. -/
theorem DestroyQueue_eq_of_null (self : HSAResourceManager) (w : World) (status : Nat)
    (hq : self.ms_pQueue = 0) :
    self.DestroyQueue w status = { ret := true, self := self, world := w } := by
  have h0 : ¬ (0 ≠ self.ms_pQueue) := fun h => h hq.symm
  unfold HSAResourceManager.DestroyQueue
  rw [if_neg h0]

/-- Normal form of `DestroyQueue` when the runtime destroys the queue. -/
theorem DestroyQueue_eq_of_success (self : HSAResourceManager) (w : World) (status : Nat)
    (hq : self.ms_pQueue ≠ 0) (hs : status = HSA_STATUS_SUCCESS) :
    self.DestroyQueue w status =
      { ret := true, self := { self with ms_pQueue := 0 },
        world := { w with trace := w.trace ++ [Event.hsa_queue_destroy self.ms_pQueue] } } := by
  have h0 : 0 ≠ self.ms_pQueue := fun h => hq h.symm
  have hc : HsaCheckStatus status = true := by
    unfold HsaCheckStatus
    rw [if_pos hs.symm]
  unfold HSAResourceManager.DestroyQueue
  simp only [if_pos h0, hc, ne_eq, not_true_eq_false, if_false]

/-- Normal form of `DestroyQueue` when the runtime fails to destroy the queue. -/
theorem DestroyQueue_eq_of_failure (self : HSAResourceManager) (w : World) (status : Nat)
    (hq : self.ms_pQueue ≠ 0) (hs : status ≠ HSA_STATUS_SUCCESS) :
    self.DestroyQueue w status =
      { ret := false, self := self,
        world := { w with trace := w.trace ++ [Event.hsa_queue_destroy self.ms_pQueue] } } := by
  have h0 : 0 ≠ self.ms_pQueue := fun h => hq h.symm
  have hc : HsaCheckStatus status = false := by
    unfold HsaCheckStatus
    rw [if_neg (fun e => hs e.symm)]
  unfold HSAResourceManager.DestroyQueue
  simp only [if_pos h0, hc, ne_eq, Bool.true_eq_false, not_false_eq_true, if_true]

/-- Claim C15. `DestroyQueue`: with no queue set it returns true and makes no
runtime call (the world and the manager are as before); with a queue set and
a successful `hsa_queue_destroy` it returns true and `Queue()` is null
afterwards; with a failing `hsa_queue_destroy` it returns false and `Queue()`
still holds the same queue. In both cases with a queue the one new event is
the destroy call on that queue. -/
theorem DestroyQueue_three_cases (self : HSAResourceManager) (w : World) (status : Nat) :
    (self.Queue = 0 →
      (self.DestroyQueue w status).ret = true ∧
      (self.DestroyQueue w status).world = w ∧
      (self.DestroyQueue w status).world.trace = w.trace ∧
      (self.DestroyQueue w status).self = self) ∧
    (self.Queue ≠ 0 → status = HSA_STATUS_SUCCESS →
      (self.DestroyQueue w status).ret = true ∧
      (self.DestroyQueue w status).self.Queue = 0 ∧
      (self.DestroyQueue w status).world.trace
        = w.trace ++ [Event.hsa_queue_destroy self.Queue]) ∧
    (self.Queue ≠ 0 → status ≠ HSA_STATUS_SUCCESS →
      (self.DestroyQueue w status).ret = false ∧
      (self.DestroyQueue w status).self.Queue = self.Queue ∧
      (self.DestroyQueue w status).self = self ∧
      (self.DestroyQueue w status).world.trace
        = w.trace ++ [Event.hsa_queue_destroy self.Queue]) := by
  unfold HSAResourceManager.Queue
  refine ⟨fun hq => ?_, fun hq hs => ?_, fun hq hs => ?_⟩
  · rw [DestroyQueue_eq_of_null self w status hq]
    exact ⟨rfl, rfl, rfl, rfl⟩
  · rw [DestroyQueue_eq_of_success self w status hq hs]
    exact ⟨rfl, rfl, rfl⟩
  · rw [DestroyQueue_eq_of_failure self w status hq hs]
    exact ⟨rfl, rfl, rfl, rfl⟩

/-- Evaluation of C15 on `sampleManagerNoQueue` and on `sampleManager` (queue
at 3) with a successful and with a failed destroy call. -/
theorem DestroyQueue_three_cases_witness :
    sampleManagerNoQueue.Queue = 0 ∧ sampleManager.Queue ≠ 0 ∧
    (0 : Nat) = HSA_STATUS_SUCCESS ∧ (4096 : Nat) ≠ HSA_STATUS_SUCCESS ∧
    (sampleManagerNoQueue.DestroyQueue sampleWorld 4096).world.trace = [] ∧
    (sampleManager.DestroyQueue sampleWorld 0).self.Queue = 0 ∧
    (sampleManager.DestroyQueue sampleWorld 4096).ret = false ∧
    (sampleManager.DestroyQueue sampleWorld 4096).self.Queue = 3 :=
  ⟨by decide, by decide, rfl, by decide,
   ((DestroyQueue_three_cases sampleManagerNoQueue sampleWorld 4096).1 (by decide)).2.2.1,
   ((DestroyQueue_three_cases sampleManager sampleWorld 0).2.1 (by decide) rfl).2.1,
   ((DestroyQueue_three_cases sampleManager sampleWorld 4096).2.2 (by decide) (by decide)).1,
   ((DestroyQueue_three_cases sampleManager sampleWorld 4096).2.2 (by decide) (by decide)).2.1⟩

/-- Claim C16. `SetQueue(pQueue)`: if there is no existing queue, or the
runtime destroys the existing one, it returns true and `Queue()` equals
`pQueue` afterwards; if destroying the existing queue fails it returns false
and `Queue()` is still the old queue. An existing queue is passed to
`hsa_queue_destroy` (one event); with no existing queue no call is made. -/
theorem SetQueue_overrides_queue (self : HSAResourceManager) (w : World) (status : Nat)
    (pQueue : Nat) :
    (self.Queue = 0 ∨ status = HSA_STATUS_SUCCESS →
      (self.SetQueue w status pQueue).ret = true ∧
      (self.SetQueue w status pQueue).self.Queue = pQueue) ∧
    (self.Queue ≠ 0 → status ≠ HSA_STATUS_SUCCESS →
      (self.SetQueue w status pQueue).ret = false ∧
      (self.SetQueue w status pQueue).self.Queue = self.Queue ∧
      (self.SetQueue w status pQueue).self = self) ∧
    (self.Queue ≠ 0 →
      (self.SetQueue w status pQueue).world.trace
        = w.trace ++ [Event.hsa_queue_destroy self.Queue]) ∧
    (self.Queue = 0 → (self.SetQueue w status pQueue).world = w) := by
  unfold HSAResourceManager.Queue
  by_cases hq : self.ms_pQueue = 0
  · have he := DestroyQueue_eq_of_null self w status hq
    unfold HSAResourceManager.SetQueue
    rw [he]
    exact ⟨fun _ => ⟨rfl, rfl⟩, fun h => absurd hq h, fun h => absurd hq h, fun _ => rfl⟩
  · by_cases hs : status = HSA_STATUS_SUCCESS
    · have he := DestroyQueue_eq_of_success self w status hq hs
      unfold HSAResourceManager.SetQueue
      rw [he]
      exact ⟨fun _ => ⟨rfl, rfl⟩, fun _ h => absurd hs h, fun _ => rfl, fun h => absurd h hq⟩
    · have he := DestroyQueue_eq_of_failure self w status hq hs
      unfold HSAResourceManager.SetQueue
      rw [he]
      refine ⟨fun h => ?_, fun _ _ => ⟨rfl, rfl, rfl⟩, fun _ => rfl, fun h => absurd h hq⟩
      rcases h with h | h
      · exact absurd h hq
      · exact absurd h hs

/-- Evaluation of C16 on `sampleManager` (queue at 3), replacing the queue by
the one at 8: with a successful destroy the queue is 8, with a failed destroy
the call returns false and the queue is still 3. -/
theorem SetQueue_overrides_queue_witness :
    (sampleManager.Queue = 0 ∨ (0 : Nat) = HSA_STATUS_SUCCESS) ∧
    sampleManager.Queue ≠ 0 ∧ (4096 : Nat) ≠ HSA_STATUS_SUCCESS ∧
    (sampleManager.SetQueue sampleWorld 0 8).ret = true ∧
    (sampleManager.SetQueue sampleWorld 0 8).self.Queue = 8 ∧
    (sampleManager.SetQueue sampleWorld 4096 8).ret = false ∧
    (sampleManager.SetQueue sampleWorld 4096 8).self.Queue = 3 ∧
    (sampleManager.SetQueue sampleWorld 4096 8).world.trace = [Event.hsa_queue_destroy 3] :=
  ⟨Or.inr rfl, by decide, by decide,
   ((SetQueue_overrides_queue sampleManager sampleWorld 0 8).1 (Or.inr rfl)).1,
   ((SetQueue_overrides_queue sampleManager sampleWorld 0 8).1 (Or.inr rfl)).2,
   ((SetQueue_overrides_queue sampleManager sampleWorld 4096 8).2.1 (by decide) (by decide)).1,
   ((SetQueue_overrides_queue sampleManager sampleWorld 4096 8).2.1
      (by decide) (by decide)).2.1,
   (SetQueue_overrides_queue sampleManager sampleWorld 4096 8).2.2.1 (by decide)⟩

/-! ## Waiting for completion -/

/-- Normal form of `WaitForCompletion`: the result, the events and the
observed signal value, for every argument and runtime answer. -/
theorem WaitForCompletion_eq (self : HSAResourceManager) (w : World)
    (completionSignal timeout : Nat) (outputTimingData : Bool) (waitValue : Int)
    (profilingStatus : Nat) :
    self.WaitForCompletion w completionSignal timeout outputTimingData waitValue
        profilingStatus =
      { ret := if 0 ≠ waitValue then false else true,
        self := self,
        world :=
          { w with
            trace := (w.trace ++
              [Event.hsa_signal_wait_acquire completionSignal HSA_SIGNAL_CONDITION_EQ 0 timeout
                HSA_WAIT_STATE_ACTIVE]) ++
              (if (outputTimingData && self.ms_profilingEnabled) = true then
                [Event.hsa_amd_profiling_get_dispatch_time self.ms_gpu.m_device completionSignal]
               else []),
            signals := fun s => if s = completionSignal then waitValue else w.signals s } } := by
  unfold HSAResourceManager.WaitForCompletion
  by_cases hc : (outputTimingData && self.ms_profilingEnabled) = true
  · simp only [if_pos hc]
  · simp only [if_neg hc, List.append_nil]

/-- Claim C11, evaluated where it fails. `WaitForCompletion` on signal 77 of
`sampleManager`, whose wait returns the value 0: the call returns true, its
only runtime call is the wait (no store to the signal is made), and the value
of the signal after the call is the observed 0, not 1. -/
theorem WaitForCompletion_leaves_signal_at_zero :
    (sampleManager.WaitForCompletion sampleWorld 77 UINT64_MAX false 0 0).ret = true ∧
    (sampleManager.WaitForCompletion sampleWorld 77 UINT64_MAX false 0 0).world.trace
      = [Event.hsa_signal_wait_acquire 77 HSA_SIGNAL_CONDITION_EQ 0 UINT64_MAX
          HSA_WAIT_STATE_ACTIVE] ∧
    (sampleManager.WaitForCompletion sampleWorld 77 UINT64_MAX false 0 0).world.signals 77
      = 0 ∧
    (sampleManager.WaitForCompletion sampleWorld 77 UINT64_MAX false 0 0).world.signals 77
      ≠ 1 := by
  decide

/-- For every call of `WaitForCompletion`: no event it adds is a signal store,
and when it returns true the signal holds 0. -/
theorem WaitForCompletion_never_stores (self : HSAResourceManager) (w : World)
    (completionSignal timeout : Nat) (outputTimingData : Bool) (waitValue : Int)
    (profilingStatus : Nat) :
    (∀ s v, Event.hsa_signal_store_release s v ∈
        (self.WaitForCompletion w completionSignal timeout outputTimingData waitValue
          profilingStatus).world.trace →
      Event.hsa_signal_store_release s v ∈ w.trace) ∧
    ((self.WaitForCompletion w completionSignal timeout outputTimingData waitValue
        profilingStatus).ret = true →
      (self.WaitForCompletion w completionSignal timeout outputTimingData waitValue
        profilingStatus).world.signals completionSignal = 0) := by
  rw [WaitForCompletion_eq]
  refine ⟨fun s v hm => ?_, fun hr => ?_⟩
  · simp only [List.mem_append, List.mem_singleton] at hm
    rcases hm with (hm | hm) | hm
    · exact hm
    · cases hm
    · split_ifs at hm
      · simp only [List.mem_singleton] at hm
        cases hm
      · cases hm
  · by_cases hv : 0 ≠ waitValue
    · simp only [if_pos hv] at hr
      cases hr
    · simp only [if_true]
      exact (not_not.mp hv).symm

/-- Claim C12. `WaitForCompletion` makes the runtime wait on the completion
signal with condition "equal", compare value 0 and the given timeout, and
returns true exactly when that wait returns the value 0. Whether timing output
is requested, whether profiling is enabled and what the profiling query
answers do not change the returned value; they only decide whether the
profiling query is the second event. -/
theorem WaitForCompletion_true_iff_wait_zero (self : HSAResourceManager) (w : World)
    (completionSignal timeout : Nat) (outputTimingData : Bool) (waitValue : Int)
    (profilingStatus : Nat) :
    ((self.WaitForCompletion w completionSignal timeout outputTimingData waitValue
        profilingStatus).ret = true ↔ waitValue = 0) ∧
    (∀ (outputTimingData2 profilingEnabled2 : Bool) (profilingStatus2 : Nat),
      (({ self with ms_profilingEnabled := profilingEnabled2 } :
          HSAResourceManager).WaitForCompletion w completionSignal timeout outputTimingData2
          waitValue profilingStatus2).ret
        = (self.WaitForCompletion w completionSignal timeout outputTimingData waitValue
            profilingStatus).ret) ∧
    (self.WaitForCompletion w completionSignal timeout outputTimingData waitValue
        profilingStatus).world.trace
      = (w.trace ++
          [Event.hsa_signal_wait_acquire completionSignal HSA_SIGNAL_CONDITION_EQ 0 timeout
            HSA_WAIT_STATE_ACTIVE]) ++
        (if (outputTimingData && self.ms_profilingEnabled) = true then
          [Event.hsa_amd_profiling_get_dispatch_time self.ms_gpu.m_device completionSignal]
         else []) := by
  refine ⟨?_, fun o2 p2 s2 => ?_, ?_⟩
  · rw [WaitForCompletion_eq]
    by_cases hv : 0 ≠ waitValue
    · simp only [if_pos hv]
      exact ⟨fun h => (by cases h), fun h => absurd h.symm hv⟩
    · simp only [if_neg hv]
      exact ⟨fun _ => (not_not.mp hv).symm, fun _ => trivial⟩
  · rw [WaitForCompletion_eq, WaitForCompletion_eq]
  · rw [WaitForCompletion_eq]

/-! ## The ring slot -/

/-- Claim C19. For a manager with a queue whose size is a 32-bit value from 1
up and whose write index is a 64-bit value, the slot `index & (queueSize - 1)`
at which `Dispatch` stores the packet is below `queueSize`. When `queueSize`
is a power of two the slot is `index % queueSize`, and the slot that the write
index left by `Dispatch` selects is the next one cyclically,
`(index % queueSize + 1) % queueSize`. -/
theorem Dispatch_slot_inside_ring (self : HSAResourceManager) (w : World) (aqlAddr : Nat)
    (aql : hsa_kernel_dispatch_packet_t) (hq : self.Queue ≠ 0)
    (hsize : 1 ≤ (w.queues self.Queue).size) (h32 : (w.queues self.Queue).size < 2 ^ 32)
    (_h64 : (w.queues self.Queue).write_index < 2 ^ 64) :
    Event.queue_packet_store self.Queue
        ((w.queues self.Queue).write_index &&& ((w.queues self.Queue).size - 1))
        (self.Dispatch w aqlAddr aql).aql ∈ (self.Dispatch w aqlAddr aql).world.trace ∧
    ((w.queues self.Queue).write_index &&& ((w.queues self.Queue).size - 1))
      < (w.queues self.Queue).size ∧
    (∀ k, (w.queues self.Queue).size = 2 ^ k →
      ((w.queues self.Queue).write_index &&& ((w.queues self.Queue).size - 1))
        = (w.queues self.Queue).write_index % (w.queues self.Queue).size ∧
      (((self.Dispatch w aqlAddr aql).world.queues self.Queue).write_index &&&
          (((self.Dispatch w aqlAddr aql).world.queues self.Queue).size - 1))
        = ((w.queues self.Queue).write_index % (w.queues self.Queue).size + 1)
            % (w.queues self.Queue).size) := by
  have hq0 : self.ms_pQueue ≠ 0 := hq
  rw [Dispatch_eq self w aqlAddr aql hq0]
  unfold HSAResourceManager.Queue at *
  refine ⟨?_, ?_, ?_⟩
  · rw [queueMask_eq_pred _ hsize h32]
    simp only [List.mem_append, List.mem_cons, List.mem_singleton, true_or, or_true]
  · have hle : ((w.queues self.ms_pQueue).write_index &&& ((w.queues self.ms_pQueue).size - 1))
        ≤ (w.queues self.ms_pQueue).size - 1 := Nat.and_le_right
    omega
  · intro k hk
    have hk32 : k < 32 := by
      rw [hk] at h32
      exact (Nat.pow_lt_pow_iff_right (by decide)).mp h32
    have hdvd : 2 ^ k ∣ 2 ^ 64 := Nat.pow_dvd_pow 2 (by omega)
    simp only [if_true]
    rw [hk, Nat.and_pow_two_sub_one_eq_mod, Nat.and_pow_two_sub_one_eq_mod,
      Nat.mod_mod_of_dvd _ hdvd]
    exact ⟨rfl, by rw [Nat.add_mod]; cases k with
      | zero => simp
      | succ n =>
        have h1 : 1 % 2 ^ (n + 1) = 1 := Nat.mod_eq_of_lt (Nat.one_lt_two_pow (by omega))
        rw [h1]⟩

/-- Evaluation of C19 on `sampleManager`: size 4 and write index 5 give slot 1,
and the write index 6 left by `Dispatch` selects slot 2. -/
theorem Dispatch_slot_inside_ring_witness :
    sampleManager.Queue ≠ 0 ∧ 1 ≤ (sampleWorld.queues sampleManager.Queue).size ∧
    (sampleWorld.queues sampleManager.Queue).size < 2 ^ 32 ∧
    (sampleWorld.queues sampleManager.Queue).write_index < 2 ^ 64 ∧
    (sampleWorld.queues sampleManager.Queue).size = 2 ^ 2 ∧
    ((5 : Nat) &&& (4 - 1)) < 4 ∧
    ((5 : Nat) &&& (4 - 1)) = 5 % 4 ∧
    ((((sampleManager.Dispatch sampleWorld 100 samplePacket).world.queues 3).write_index &&&
        (((sampleManager.Dispatch sampleWorld 100 samplePacket).world.queues 3).size - 1))
      = 2) :=
  ⟨by decide, by decide, by decide, by decide, by decide,
   (Dispatch_slot_inside_ring sampleManager sampleWorld 100 samplePacket
      (by decide) (by decide) (by decide) (by decide)).2.1,
   ((Dispatch_slot_inside_ring sampleManager sampleWorld 100 samplePacket
      (by decide) (by decide) (by decide) (by decide)).2.2 2 (by decide)).1,
   ((Dispatch_slot_inside_ring sampleManager sampleWorld 100 samplePacket
      (by decide) (by decide) (by decide) (by decide)).2.2 2 (by decide)).2⟩

/-! ## The default packet -/

/-- Claim C18. Whatever the packet held before, `InitAQL` returns true and
leaves the packet of one work-item: the three workgroup sizes and the three
grid sizes are 1, the dimensions field of `setup` is 1 and `setup` has no
other bit, the header is the kernel dispatch packet type with system scope
acquire and release fences (type field 2, barrier bit 0, both fence fields 2,
no higher bit; the value 5122), and every other field is 0. -/
theorem InitAQL_default_packet (aqlPacketOut : hsa_kernel_dispatch_packet_t) :
    (InitAQL aqlPacketOut).1 = true ∧
    (InitAQL aqlPacketOut).2 =
      { header := 5122, setup := 1,
        workgroup_size_x := 1, workgroup_size_y := 1, workgroup_size_z := 1, reserved0 := 0,
        grid_size_x := 1, grid_size_y := 1, grid_size_z := 1,
        private_segment_size := 0, group_segment_size := 0, kernel_object := 0,
        kernarg_address := 0, reserved2 := 0, completion_signal := 0 } ∧
    (InitAQL aqlPacketOut).2.header =
      ((HSA_PACKET_TYPE_KERNEL_DISPATCH <<< HSA_PACKET_HEADER_TYPE) |||
        (HSA_FENCE_SCOPE_SYSTEM <<< HSA_PACKET_HEADER_ACQUIRE_FENCE_SCOPE) |||
        (HSA_FENCE_SCOPE_SYSTEM <<< HSA_PACKET_HEADER_RELEASE_FENCE_SCOPE)) ∧
    ((InitAQL aqlPacketOut).2.header >>> HSA_PACKET_HEADER_TYPE) % 2 ^ 8
      = HSA_PACKET_TYPE_KERNEL_DISPATCH ∧
    ((InitAQL aqlPacketOut).2.header >>> HSA_PACKET_HEADER_BARRIER) % 2 = 0 ∧
    ((InitAQL aqlPacketOut).2.header >>> HSA_PACKET_HEADER_ACQUIRE_FENCE_SCOPE) % 2 ^ 2
      = HSA_FENCE_SCOPE_SYSTEM ∧
    ((InitAQL aqlPacketOut).2.header >>> HSA_PACKET_HEADER_RELEASE_FENCE_SCOPE) % 2 ^ 2
      = HSA_FENCE_SCOPE_SYSTEM ∧
    (InitAQL aqlPacketOut).2.header >>> 13 = 0 ∧
    ((InitAQL aqlPacketOut).2.setup >>> HSA_KERNEL_DISPATCH_PACKET_SETUP_DIMENSIONS) % 2 ^ 2
      = 1 ∧
    (InitAQL aqlPacketOut).2.setup >>> 2 = 0 ∧
    (InitAQL aqlPacketOut).2.grid_size_x * (InitAQL aqlPacketOut).2.grid_size_y *
      (InitAQL aqlPacketOut).2.grid_size_z = 1 := by
  have h : (InitAQL aqlPacketOut) = (true,
      { header := 5122, setup := 1,
        workgroup_size_x := 1, workgroup_size_y := 1, workgroup_size_z := 1, reserved0 := 0,
        grid_size_x := 1, grid_size_y := 1, grid_size_z := 1,
        private_segment_size := 0, group_segment_size := 0, kernel_object := 0,
        kernarg_address := 0, reserved2 := 0, completion_signal := 0 }) := by
    unfold InitAQL
    decide
  rw [h]
  decide

/-! ## Agent discovery -/

/-- What `QueryDevice_Callback` returns and the list it leaves for a non-null
agent list. -/
theorem QueryDevice_Callback_some (gs_bVerbosePrint : Bool) (w : World) (agent : Nat)
    (agentList : AgentList) (reply : AgentQueryReply) :
    (QueryDevice_Callback gs_bVerbosePrint w agent (some agentList) reply).1
      = (if gs_bVerbosePrint then reply.nameStatus else reply.profileStatus) ∧
    (QueryDevice_Callback gs_bVerbosePrint w agent (some agentList) reply).2.1
      = some (classifiedAgentList agentList agent reply) := by
  have hinfo : (if (!HsaCheckStatus reply.chipStatus) = true then
        ({ m_device := agent, m_chipID := 0, m_profile := reply.profile } : AgentInfo)
      else { m_device := agent, m_chipID := reply.chipID, m_profile := reply.profile })
      = queriedAgentInfo agent reply := by
    unfold queriedAgentInfo HsaCheckStatus
    by_cases hs : HSA_STATUS_SUCCESS = reply.chipStatus
    · simp only [if_pos hs, if_pos hs.symm, Bool.not_true, Bool.false_eq_true, if_false]
    · have hs2 : ¬ reply.chipStatus = HSA_STATUS_SUCCESS := fun e => hs e.symm
      simp only [if_neg hs, if_neg hs2, Bool.not_false, if_true]
  unfold QueryDevice_Callback classifiedAgentList
  rw [← hinfo]
  cases gs_bVerbosePrint <;> cases hc : (!HsaCheckStatus reply.chipStatus) <;>
    refine ⟨?_, ?_⟩ <;>
    simp only [if_true, if_false, Bool.false_eq_true]

/-- Claim C20. `QueryDevice_Callback` with a non-null agent list appends the
entry of the agent (its handle, its chip id and its profile) at the end of
the CPU list, and leaves the GPU list as it was, when the device type is CPU;
at the end of the GPU list, leaving the CPU list, when the type is GPU; and
leaves both lists as they were for every other type. With a null data pointer
it returns `HSA_STATUS_ERROR_INVALID_ARGUMENT`, makes no runtime call and
changes nothing. -/
theorem QueryDevice_Callback_classifies (gs_bVerbosePrint : Bool) (w : World) (agent : Nat)
    (agentList : AgentList) (reply : AgentQueryReply) :
    (reply.deviceType = HSA_DEVICE_TYPE_CPU →
      (QueryDevice_Callback gs_bVerbosePrint w agent (some agentList) reply).2.1
        = some { m_vecGPU := agentList.m_vecGPU,
                 m_vecCPU := agentList.m_vecCPU ++ [queriedAgentInfo agent reply] }) ∧
    (reply.deviceType = HSA_DEVICE_TYPE_GPU →
      (QueryDevice_Callback gs_bVerbosePrint w agent (some agentList) reply).2.1
        = some { m_vecGPU := agentList.m_vecGPU ++ [queriedAgentInfo agent reply],
                 m_vecCPU := agentList.m_vecCPU }) ∧
    (reply.deviceType ≠ HSA_DEVICE_TYPE_CPU → reply.deviceType ≠ HSA_DEVICE_TYPE_GPU →
      (QueryDevice_Callback gs_bVerbosePrint w agent (some agentList) reply).2.1
        = some agentList) ∧
    QueryDevice_Callback gs_bVerbosePrint w agent none reply
      = (HSA_STATUS_ERROR_INVALID_ARGUMENT, none, w) := by
  have hcpu_ne_gpu : HSA_DEVICE_TYPE_CPU ≠ HSA_DEVICE_TYPE_GPU := by decide
  refine ⟨fun h => ?_, fun h => ?_, fun h1 h2 => ?_, rfl⟩
  · rw [(QueryDevice_Callback_some gs_bVerbosePrint w agent agentList reply).2]
    unfold classifiedAgentList
    rw [if_pos h]
  · have h' : ¬ reply.deviceType = HSA_DEVICE_TYPE_CPU := fun e => hcpu_ne_gpu (e.symm.trans h)
    rw [(QueryDevice_Callback_some gs_bVerbosePrint w agent agentList reply).2]
    unfold classifiedAgentList
    rw [if_neg h', if_pos h]
  · rw [(QueryDevice_Callback_some gs_bVerbosePrint w agent agentList reply).2]
    unfold classifiedAgentList
    rw [if_neg h1, if_neg h2]

/-- Evaluation of C20 on `sampleAgentList`: a CPU agent whose chip id query
fails (entry with chip id 0), a GPU agent, a DSP agent, and a null pointer. -/
theorem QueryDevice_Callback_classifies_witness :
    sampleCpuAgent.2.deviceType = HSA_DEVICE_TYPE_CPU ∧
    sampleGpuAgent.2.deviceType = HSA_DEVICE_TYPE_GPU ∧
    sampleDspAgent.2.deviceType ≠ HSA_DEVICE_TYPE_CPU ∧
    sampleDspAgent.2.deviceType ≠ HSA_DEVICE_TYPE_GPU ∧
    (QueryDevice_Callback false sampleWorld 12 (some sampleAgentList) sampleCpuAgent.2).2.1
      = some { m_vecGPU := [{ m_device := 1, m_chipID := 100 }],
               m_vecCPU := [{ m_device := 2, m_chipID := 200 },
                            { m_device := 12, m_chipID := 0, m_profile := 1 }] } ∧
    (QueryDevice_Callback false sampleWorld 11 (some sampleAgentList) sampleGpuAgent.2).2.1
      = some { m_vecGPU := [{ m_device := 1, m_chipID := 100 },
                            { m_device := 11, m_chipID := 26640, m_profile := 1 }],
               m_vecCPU := [{ m_device := 2, m_chipID := 200 }] } ∧
    (QueryDevice_Callback false sampleWorld 13 (some sampleAgentList) sampleDspAgent.2).2.1
      = some sampleAgentList ∧
    (QueryDevice_Callback false sampleWorld 13 none sampleDspAgent.2).1
      = HSA_STATUS_ERROR_INVALID_ARGUMENT :=
  ⟨rfl, rfl, by decide, by decide,
   (QueryDevice_Callback_classifies false sampleWorld 12 sampleAgentList sampleCpuAgent.2).1 rfl,
   (QueryDevice_Callback_classifies false sampleWorld 11 sampleAgentList
      sampleGpuAgent.2).2.1 rfl,
   (QueryDevice_Callback_classifies false sampleWorld 13 sampleAgentList
      sampleDspAgent.2).2.2.1 (by decide) (by decide),
   congrArg Prod.fst
     (QueryDevice_Callback_classifies false sampleWorld 13 sampleAgentList
        sampleDspAgent.2).2.2.2⟩

/-- Discovery order: when every callback returns success, `hsa_iterate_agents`
returns its own status and leaves each list as it was followed by the entries
of the agents of its type, in the order in which the agents were visited. -/
theorem hsa_iterate_agents_discovery_order (gs_bVerbosePrint : Bool) (status : Nat)
    (agents : List (Nat × AgentQueryReply)) :
    ∀ (w : World) (agentList : AgentList),
      (∀ a ∈ agents, (if gs_bVerbosePrint then a.2.nameStatus else a.2.profileStatus)
          = HSA_STATUS_SUCCESS) →
      (hsa_iterate_agents gs_bVerbosePrint w (some agentList) status agents).1 = status ∧
      (hsa_iterate_agents gs_bVerbosePrint w (some agentList) status agents).2.1
        = some { m_vecGPU := agentList.m_vecGPU ++ discoveredOfType HSA_DEVICE_TYPE_GPU agents,
                 m_vecCPU := agentList.m_vecCPU ++ discoveredOfType HSA_DEVICE_TYPE_CPU agents } := by
  induction agents with
  | nil =>
    intro w agentList _
    simp [hsa_iterate_agents, discoveredOfType]
  | cons a rest ih =>
    intro w agentList hok
    obtain ⟨agent, reply⟩ := a
    have hs := QueryDevice_Callback_some gs_bVerbosePrint w agent agentList reply
    have h1 : (QueryDevice_Callback gs_bVerbosePrint w agent (some agentList) reply).1
        = HSA_STATUS_SUCCESS := by
      rw [hs.1]
      exact hok (agent, reply) (List.mem_cons_self _ _)
    have hrest := ih (QueryDevice_Callback gs_bVerbosePrint w agent (some agentList) reply).2.2
      (classifiedAgentList agentList agent reply)
      (fun b hb => hok b (List.mem_cons_of_mem _ hb))
    have hcpu_ne_gpu : HSA_DEVICE_TYPE_CPU ≠ HSA_DEVICE_TYPE_GPU := by decide
    simp only [hsa_iterate_agents, h1, ne_eq, not_true_eq_false, if_false, hs.2]
    refine ⟨hrest.1, ?_⟩
    rw [hrest.2]
    unfold classifiedAgentList discoveredOfType
    by_cases hc : reply.deviceType = HSA_DEVICE_TYPE_CPU
    · have hg : ¬ reply.deviceType = HSA_DEVICE_TYPE_GPU := fun e => hcpu_ne_gpu (hc.symm.trans e)
      simp [hc, hg, List.filter_cons, hcpu_ne_gpu]
    · by_cases hg : reply.deviceType = HSA_DEVICE_TYPE_GPU
      · simp [hc, hg, List.filter_cons, hcpu_ne_gpu.symm]
      · simp [hc, hg, List.filter_cons]

/-! ## Runtime initialisation -/

/-- The version block of `InitRuntime` keeps the agent list, the runtime flag
and the agent information it is given. -/
theorem InitRuntime_cacheVersion_keeps (self : HSAResourceManager) (w : World) (ret : Bool)
    (agentList : AgentList) (a : InitRuntimeAnswers) :
    (self.InitRuntime_cacheVersion w ret agentList a).agentList = agentList ∧
    (self.InitRuntime_cacheVersion w ret agentList a).self.ms_hasRuntime = self.ms_hasRuntime ∧
    (self.InitRuntime_cacheVersion w ret agentList a).self.ms_gpu = self.ms_gpu ∧
    (self.InitRuntime_cacheVersion w ret agentList a).self.ms_cpu = self.ms_cpu := by
  unfold HSAResourceManager.InitRuntime_cacheVersion HSAResourceManager.GetHsaVersion
  dsimp only
  refine ⟨rfl, ?_, ?_, ?_⟩ <;> (split_ifs <;> rfl)

/-- Claim C17. When the runtime is not yet initialised and agent discovery
leaves the GPU list or the CPU list empty, `InitRuntime` returns false,
`HasRuntime()` is still false and the default GPU and CPU agent information is
as before. -/
theorem InitRuntime_requires_gpu_and_cpu (self : HSAResourceManager) (w : World)
    (verbosePrint : Bool) (a : InitRuntimeAnswers)
    (hrt : self.HasRuntime = false)
    (hnone : (self.InitRuntime w verbosePrint a).agentList.m_vecGPU = [] ∨
             (self.InitRuntime w verbosePrint a).agentList.m_vecCPU = []) :
    (self.InitRuntime w verbosePrint a).ret = false ∧
    (self.InitRuntime w verbosePrint a).self.HasRuntime = false ∧
    (self.InitRuntime w verbosePrint a).self.GPUInfo = self.GPUInfo ∧
    (self.InitRuntime w verbosePrint a).self.CPUInfo = self.CPUInfo := by
  unfold HSAResourceManager.HasRuntime HSAResourceManager.GPUInfo HSAResourceManager.CPUInfo at *
  have h1 : (!self.ms_hasRuntime) = true := by rw [hrt]; rfl
  have hd : (self.InitRuntime_discover w verbosePrint a).self.ms_hasRuntime = self.ms_hasRuntime ∧
      (self.InitRuntime_discover w verbosePrint a).self.ms_gpu = self.ms_gpu ∧
      (self.InitRuntime_discover w verbosePrint a).self.ms_cpu = self.ms_cpu :=
    ⟨rfl, rfl, rfl⟩
  unfold HSAResourceManager.InitRuntime at hnone ⊢
  simp only [h1, if_true] at hnone ⊢
  by_cases hg : 0 = (self.InitRuntime_discover w verbosePrint a).agentList.m_vecGPU.length
  · simp only [if_pos hg]
    exact ⟨trivial, hd.1.trans hrt, hd.2.1, hd.2.2⟩
  · by_cases hc : 0 = (self.InitRuntime_discover w verbosePrint a).agentList.m_vecCPU.length
    · simp only [if_neg hg, if_pos hc]
      exact ⟨trivial, hd.1.trans hrt, hd.2.1, hd.2.2⟩
    · simp only [if_neg hg, if_neg hc] at hnone
      rw [(InitRuntime_cacheVersion_keeps _ _ _ _ _).1] at hnone
      rcases hnone with h | h
      · rw [h] at hg
        exact absurd rfl hg
      · rw [h] at hc
        exact absurd rfl hc

/-- Evaluation of C17 on a manager with no runtime and a runtime that knows a
GPU agent and a DSP agent but no CPU agent: discovery finds the GPU agent, the
call returns false, and the marked agent information (91, 92) is still there. -/
theorem InitRuntime_requires_gpu_and_cpu_witness :
    managerBeforeInit.HasRuntime = false ∧
    (managerBeforeInit.InitRuntime sampleWorld true answersWithoutCpu).agentList.m_vecGPU
      = [queriedAgentInfo 11 sampleGpuAgent.2] ∧
    (managerBeforeInit.InitRuntime sampleWorld true answersWithoutCpu).agentList.m_vecCPU = [] ∧
    (managerBeforeInit.InitRuntime sampleWorld true answersWithoutCpu).ret = false ∧
    (managerBeforeInit.InitRuntime sampleWorld true answersWithoutCpu).self.HasRuntime = false ∧
    (managerBeforeInit.InitRuntime sampleWorld true answersWithoutCpu).self.GPUInfo.m_device
      = 91 ∧
    (managerBeforeInit.InitRuntime sampleWorld true answersWithoutCpu).self.CPUInfo.m_device
      = 92 :=
  ⟨rfl, by decide, by decide,
   (InitRuntime_requires_gpu_and_cpu managerBeforeInit sampleWorld true answersWithoutCpu rfl
      (Or.inr (by decide))).1,
   (InitRuntime_requires_gpu_and_cpu managerBeforeInit sampleWorld true answersWithoutCpu rfl
      (Or.inr (by decide))).2.1,
   congrArg AgentInfo.m_device
     (InitRuntime_requires_gpu_and_cpu managerBeforeInit sampleWorld true answersWithoutCpu rfl
        (Or.inr (by decide))).2.2.1,
   congrArg AgentInfo.m_device
     (InitRuntime_requires_gpu_and_cpu managerBeforeInit sampleWorld true answersWithoutCpu rfl
        (Or.inr (by decide))).2.2.2⟩

/-- With a GPU agent and a CPU agent the same manager is initialised: the call
returns true, `HasRuntime()` is true, and the first agents found are the
defaults (GPU 11 with kernel argument region 21, CPU 12). -/
theorem InitRuntime_with_gpu_and_cpu_sample :
    (managerBeforeInit.InitRuntime sampleWorld true answersWithGpuAndCpu).ret = true ∧
    (managerBeforeInit.InitRuntime sampleWorld true answersWithGpuAndCpu).self.HasRuntime
      = true ∧
    (managerBeforeInit.InitRuntime sampleWorld true answersWithGpuAndCpu).self.GPUInfo
      = { m_device := 11, m_chipID := 26640, m_profile := 1, kernargRegion := 21 } ∧
    (managerBeforeInit.InitRuntime sampleWorld true answersWithGpuAndCpu).self.CPUInfo
      = { m_device := 12, m_chipID := 0, m_profile := 1 } := by
  decide

/-! ## Clean up -/

/-- A world is the world with its own events and nothing appended. -/
theorem World_trace_append_nil (w : World) : ({ w with trace := w.trace ++ [] } : World) = w := by
  cases w
  simp

/-- The signal loop of `CleanUp` only appends its destroy calls to the events. -/
theorem cleanUpSignals_world (answers : Nat → Nat) (l : List Nat) :
    ∀ (w : World) (ret : Bool) (i : Nat),
      (cleanUpSignals answers w ret i l).2
        = { w with trace := w.trace ++ signalDestroyEvents l } := by
  induction l with
  | nil =>
    intro w ret i
    simp only [cleanUpSignals, signalDestroyEvents, List.filter_nil, List.map_nil]
    exact (World_trace_append_nil w).symm
  | cons h rest ih =>
    intro w ret i
    by_cases h0 : 0 ≠ h
    · have hd : decide (h ≠ 0) = true := decide_eq_true (fun e => h0 e.symm)
      simp only [cleanUpSignals, if_pos h0, ih, signalDestroyEvents, List.filter_cons, hd,
        if_true, List.map_cons]
      simp [List.append_assoc]
    · have hd : decide (h ≠ 0) = false := decide_eq_false (fun e => h0 (fun e2 => e e2.symm))
      simp only [cleanUpSignals, if_neg h0, ih, signalDestroyEvents, List.filter_cons, hd,
        Bool.false_eq_true, if_false]

/-- The buffer loop of `CleanUp` only appends its free calls to the events. -/
theorem cleanUpBuffers_world (answers : Nat → Nat) (l : List (Nat × AQLInfo)) :
    ∀ (w : World) (j : Nat),
      cleanUpBuffers answers w j l = { w with trace := w.trace ++ bufferFreeEvents l } := by
  induction l with
  | nil =>
    intro w j
    simp only [cleanUpBuffers, bufferFreeEvents, List.map_nil, List.filter_nil]
    exact (World_trace_append_nil w).symm
  | cons e rest ih =>
    intro w j
    by_cases h0 : 0 = e.2.m_kernArgBuffer.m_pArgBuffer
    · have hd : decide (e.2.m_kernArgBuffer.m_pArgBuffer ≠ 0) = false :=
        decide_eq_false (fun n => n h0.symm)
      simp only [cleanUpBuffers, HSAKernelArgBuffer.DestroyBuffer, FreeHSAMemory, if_pos h0, ih,
        bufferFreeEvents, List.map_cons, List.filter_cons, hd, Bool.false_eq_true, if_false]
    · have hd : decide (e.2.m_kernArgBuffer.m_pArgBuffer ≠ 0) = true :=
        decide_eq_true (fun n => h0 n.symm)
      simp only [cleanUpBuffers, HSAKernelArgBuffer.DestroyBuffer, FreeHSAMemory, if_neg h0, ih,
        bufferFreeEvents, List.map_cons, List.filter_cons, hd, if_true]
      simp [List.append_assoc]

/-- The executable loop of `CleanUp` only appends its destroy calls to the events. -/
theorem cleanUpExecutables_world (answers : Nat → Nat) (l : List Nat) :
    ∀ (w : World) (ret : Bool) (k : Nat),
      (cleanUpExecutables answers w ret k l).2
        = { w with trace := w.trace ++ l.map Event.hsa_executable_destroy } := by
  induction l with
  | nil =>
    intro w ret k
    simp only [cleanUpExecutables, List.map_nil]
    exact (World_trace_append_nil w).symm
  | cons h rest ih =>
    intro w ret k
    simp only [cleanUpExecutables, ih, List.map_cons]
    simp [List.append_assoc]

/-- The code object loop of `CleanUp` only appends its destroy calls to the events. -/
theorem cleanUpCodeObjects_world (answers : Nat → Nat) (l : List Nat) :
    ∀ (w : World) (ret : Bool) (k : Nat),
      (cleanUpCodeObjects answers w ret k l).2
        = { w with trace := w.trace ++ l.map Event.hsa_code_object_destroy } := by
  induction l with
  | nil =>
    intro w ret k
    simp only [cleanUpCodeObjects, List.map_nil]
    exact (World_trace_append_nil w).symm
  | cons h rest ih =>
    intro w ret k
    simp only [cleanUpCodeObjects, ih, List.map_cons]
    simp [List.append_assoc]

/-- The events of `CleanUp`: the signal destroy calls, then the buffer free
calls, then the executable destroy calls, then the code object destroy calls. -/
theorem CleanUp_trace (self : HSAResourceManager) (w : World) (a : CleanUpAnswers) :
    (self.CleanUp w a).world.trace
      = w.trace ++ (signalDestroyEvents self.m_signals ++ (bufferFreeEvents self.m_aqlInfos ++
          (self.m_executableSet.map Event.hsa_executable_destroy ++
            self.m_codeObjSet.map Event.hsa_code_object_destroy))) := by
  unfold HSAResourceManager.CleanUp
  simp only [cleanUpSignals_world, cleanUpBuffers_world, cleanUpExecutables_world,
    cleanUpCodeObjects_world, List.append_assoc]

/-- Number of destroy calls of one kind for a handle among the calls made for
a list of handles: the number of entries of the list that hold the handle. -/
theorem count_map_same (f : Nat → Event) (hf : Function.Injective f) (h : Nat) (l : List Nat) :
    (l.map f).count (f h) = l.count h :=
  List.count_map_of_injective l f hf h

/-- No call of another kind is counted. -/
theorem count_map_other (f : Nat → Event) (e : Event) (l : List Nat) (hne : ∀ x, f x ≠ e) :
    (l.map f).count e = 0 := by
  apply List.count_eq_zero_of_not_mem
  intro hm
  obtain ⟨x, _, hx⟩ := List.mem_map.mp hm
  exact hne x hx

/-- Claim C13. `CleanUp` makes, in this order, one `hsa_signal_destroy` call
for each tracked signal entry with a non-zero handle, one `hsa_memory_free`
call for each kernel argument buffer of the packet map that is allocated
(`DestroyBuffer` on every entry), one `hsa_executable_destroy` call for each
tracked executable and one `hsa_code_object_destroy` call for each tracked
code object, and no other call; so a handle that is tracked once (as every
member of the two sets is) is passed to its destroy call exactly once.
Afterwards, for every answer of the runtime, the signal list, the packet map,
the executable set and the code object set are empty. -/
theorem CleanUp_releases_everything (self : HSAResourceManager) (w : World)
    (a : CleanUpAnswers) :
    (self.CleanUp w a).world.trace
      = w.trace ++ (signalDestroyEvents self.m_signals ++ (bufferFreeEvents self.m_aqlInfos ++
          (self.m_executableSet.map Event.hsa_executable_destroy ++
            self.m_codeObjSet.map Event.hsa_code_object_destroy))) ∧
    (self.CleanUp w a).self.m_signals = [] ∧
    (self.CleanUp w a).self.m_aqlInfos = [] ∧
    (self.CleanUp w a).self.m_executableSet = [] ∧
    (self.CleanUp w a).self.m_codeObjSet = [] ∧
    (∀ h, h ≠ 0 →
      (self.CleanUp w a).world.trace.count (Event.hsa_signal_destroy h)
        = w.trace.count (Event.hsa_signal_destroy h) + self.m_signals.count h) ∧
    (∀ h, (self.CleanUp w a).world.trace.count (Event.hsa_executable_destroy h)
        = w.trace.count (Event.hsa_executable_destroy h) + self.m_executableSet.count h) ∧
    (∀ h, (self.CleanUp w a).world.trace.count (Event.hsa_code_object_destroy h)
        = w.trace.count (Event.hsa_code_object_destroy h) + self.m_codeObjSet.count h) ∧
    (∀ p, p ≠ 0 →
      (self.CleanUp w a).world.trace.count (Event.hsa_memory_free p)
        = w.trace.count (Event.hsa_memory_free p)
          + (self.m_aqlInfos.map fun e => e.2.m_kernArgBuffer.m_pArgBuffer).count p) ∧
    (self.m_executableSet.Nodup → ∀ h ∈ self.m_executableSet,
      (self.CleanUp w a).world.trace.count (Event.hsa_executable_destroy h)
        = w.trace.count (Event.hsa_executable_destroy h) + 1) ∧
    (self.m_codeObjSet.Nodup → ∀ h ∈ self.m_codeObjSet,
      (self.CleanUp w a).world.trace.count (Event.hsa_code_object_destroy h)
        = w.trace.count (Event.hsa_code_object_destroy h) + 1) ∧
    (self.m_signals.Nodup → ∀ h ∈ self.m_signals, h ≠ 0 →
      (self.CleanUp w a).world.trace.count (Event.hsa_signal_destroy h)
        = w.trace.count (Event.hsa_signal_destroy h) + 1) := by
  have hsig : ∀ h, h ≠ 0 →
      (self.CleanUp w a).world.trace.count (Event.hsa_signal_destroy h)
        = w.trace.count (Event.hsa_signal_destroy h) + self.m_signals.count h := by
    intro h hne
    rw [CleanUp_trace]
    unfold signalDestroyEvents bufferFreeEvents
    rw [List.count_append, List.count_append, List.count_append, List.count_append,
      count_map_same _ (fun x y e => Event.hsa_signal_destroy.inj e),
      count_map_other Event.hsa_memory_free _ _ (fun x e => Event.noConfusion e),
      count_map_other Event.hsa_executable_destroy _ _ (fun x e => Event.noConfusion e),
      count_map_other Event.hsa_code_object_destroy _ _ (fun x e => Event.noConfusion e),
      List.count_filter (by simpa using hne)]
    omega
  have hexe : ∀ h, (self.CleanUp w a).world.trace.count (Event.hsa_executable_destroy h)
        = w.trace.count (Event.hsa_executable_destroy h) + self.m_executableSet.count h := by
    intro h
    rw [CleanUp_trace]
    unfold signalDestroyEvents bufferFreeEvents
    rw [List.count_append, List.count_append, List.count_append, List.count_append,
      count_map_same _ (fun x y e => Event.hsa_executable_destroy.inj e),
      count_map_other Event.hsa_memory_free _ _ (fun x e => Event.noConfusion e),
      count_map_other Event.hsa_signal_destroy _ _ (fun x e => Event.noConfusion e),
      count_map_other Event.hsa_code_object_destroy _ _ (fun x e => Event.noConfusion e)]
    omega
  have hcode : ∀ h, (self.CleanUp w a).world.trace.count (Event.hsa_code_object_destroy h)
        = w.trace.count (Event.hsa_code_object_destroy h) + self.m_codeObjSet.count h := by
    intro h
    rw [CleanUp_trace]
    unfold signalDestroyEvents bufferFreeEvents
    rw [List.count_append, List.count_append, List.count_append, List.count_append,
      count_map_same _ (fun x y e => Event.hsa_code_object_destroy.inj e),
      count_map_other Event.hsa_memory_free _ _ (fun x e => Event.noConfusion e),
      count_map_other Event.hsa_signal_destroy _ _ (fun x e => Event.noConfusion e),
      count_map_other Event.hsa_executable_destroy _ _ (fun x e => Event.noConfusion e)]
    omega
  have hfree : ∀ p, p ≠ 0 →
      (self.CleanUp w a).world.trace.count (Event.hsa_memory_free p)
        = w.trace.count (Event.hsa_memory_free p)
          + (self.m_aqlInfos.map fun e => e.2.m_kernArgBuffer.m_pArgBuffer).count p := by
    intro p hne
    rw [CleanUp_trace]
    unfold signalDestroyEvents bufferFreeEvents
    rw [List.count_append, List.count_append, List.count_append, List.count_append,
      count_map_same _ (fun x y e => Event.hsa_memory_free.inj e),
      count_map_other Event.hsa_signal_destroy _ _ (fun x e => Event.noConfusion e),
      count_map_other Event.hsa_executable_destroy _ _ (fun x e => Event.noConfusion e),
      count_map_other Event.hsa_code_object_destroy _ _ (fun x e => Event.noConfusion e),
      List.count_filter (by simpa using hne)]
    omega
  refine ⟨CleanUp_trace self w a, rfl, rfl, rfl, rfl, hsig, hexe, hcode, hfree, ?_, ?_, ?_⟩
  · intro hnd h hm
    rw [hexe h, List.count_eq_one_of_mem hnd hm]
  · intro hnd h hm
    rw [hcode h, List.count_eq_one_of_mem hnd hm]
  · intro hnd h hm hne
    rw [hsig h hne, List.count_eq_one_of_mem hnd hm]

/-- Evaluation of C13 on `trackingManager` with a runtime for which every
call succeeds: the six calls in order (no call for the signal entry 0 and
for the packet without a buffer), one destroy call for executable 31 and one
for signal 78. -/
theorem CleanUp_releases_everything_witness :
    trackingManager.m_executableSet.Nodup ∧ 31 ∈ trackingManager.m_executableSet ∧
    trackingManager.m_signals.Nodup ∧ 78 ∈ trackingManager.m_signals ∧ (78 : Nat) ≠ 0 ∧
    (trackingManager.CleanUp sampleWorld allSucceed).world.trace
      = [Event.hsa_signal_destroy 77, Event.hsa_signal_destroy 78, Event.hsa_memory_free 4096,
         Event.hsa_executable_destroy 31, Event.hsa_executable_destroy 32,
         Event.hsa_code_object_destroy 41] ∧
    (trackingManager.CleanUp sampleWorld allSucceed).world.trace.count
        (Event.hsa_executable_destroy 31) = 1 ∧
    (trackingManager.CleanUp sampleWorld allSucceed).world.trace.count
        (Event.hsa_signal_destroy 78) = 1 :=
  ⟨by decide, by decide, by decide, by decide, by decide,
   (CleanUp_releases_everything trackingManager sampleWorld allSucceed).1,
   (CleanUp_releases_everything trackingManager sampleWorld allSucceed).2.2.2.2.2.2.2.2.2.1
      (by decide) 31 (by decide),
   (CleanUp_releases_everything trackingManager sampleWorld allSucceed).2.2.2.2.2.2.2.2.2.2.2
      (by decide) 78 (by decide) (by decide)⟩

/-- The status check is true exactly for `HSA_STATUS_SUCCESS`. -/
theorem HsaCheckStatus_eq_true_iff (s : Nat) :
    HsaCheckStatus s = true ↔ s = HSA_STATUS_SUCCESS := by
  unfold HsaCheckStatus
  by_cases h : HSA_STATUS_SUCCESS = s
  · rw [if_pos h]
    exact ⟨fun _ => h.symm, fun _ => rfl⟩
  · rw [if_neg h]
    exact ⟨fun e => (by cases e), fun e => absurd e.symm h⟩

/-- The signal loop of `CleanUp` ends with true exactly when it started with
true and every destroy call it made (for the non-zero handles) succeeded. -/
theorem cleanUpSignals_ret (answers : Nat → Nat) (l : List Nat) :
    ∀ (w : World) (ret : Bool) (i : Nat),
      (cleanUpSignals answers w ret i l).1 = true ↔
        (ret = true ∧ ∀ n, n < l.length → l.getD n 0 ≠ 0 →
          answers (i + n) = HSA_STATUS_SUCCESS) := by
  induction l with
  | nil =>
    intro w ret i
    simp [cleanUpSignals]
  | cons h rest ih =>
    intro w ret i
    by_cases h0 : 0 ≠ h
    · simp only [cleanUpSignals, if_pos h0, ih, Bool.and_eq_true, HsaCheckStatus_eq_true_iff]
      constructor
      · rintro ⟨⟨hr, hs⟩, hrest⟩
        refine ⟨hr, fun n hn hne => ?_⟩
        cases n with
        | zero => exact hs
        | succ m =>
          have := hrest m (by simpa using hn) (by simpa using hne)
          rw [show i + (m + 1) = i + 1 + m by omega]
          exact this
      · rintro ⟨hr, hall⟩
        refine ⟨⟨hr, hall 0 (by simp) (by simpa using fun e => h0 e.symm)⟩, fun n hn hne => ?_⟩
        have := hall (n + 1) (by simpa using hn) (by simpa using hne)
        rw [show i + 1 + n = i + (n + 1) by omega]
        exact this
    · have hz : h = 0 := (not_not.mp h0).symm
      simp only [cleanUpSignals, if_neg h0, ih]
      constructor
      · rintro ⟨hr, hrest⟩
        refine ⟨hr, fun n hn hne => ?_⟩
        cases n with
        | zero => exact absurd (by simp [hz]) hne
        | succ m =>
          have := hrest m (by simpa using hn) (by simpa using hne)
          rw [show i + (m + 1) = i + 1 + m by omega]
          exact this
      · rintro ⟨hr, hall⟩
        refine ⟨hr, fun n hn hne => ?_⟩
        have := hall (n + 1) (by simpa using hn) (by simpa using hne)
        rw [show i + 1 + n = i + (n + 1) by omega]
        exact this

/-- The executable loop of `CleanUp` ends with true exactly when it started
with true and every destroy call it made succeeded. -/
theorem cleanUpExecutables_ret (answers : Nat → Nat) (l : List Nat) :
    ∀ (w : World) (ret : Bool) (k : Nat),
      (cleanUpExecutables answers w ret k l).1 = true ↔
        (ret = true ∧ ∀ n, n < l.length → answers (k + n) = HSA_STATUS_SUCCESS) := by
  induction l with
  | nil =>
    intro w ret k
    simp [cleanUpExecutables]
  | cons h rest ih =>
    intro w ret k
    simp only [cleanUpExecutables, ih]
    by_cases hs : answers k = HSA_STATUS_SUCCESS
    · have hc : HsaCheckStatus (answers k) = true := (HsaCheckStatus_eq_true_iff _).mpr hs
      simp only [hc, Bool.not_true, Bool.false_eq_true, if_false]
      constructor
      · rintro ⟨hr, hrest⟩
        refine ⟨hr, fun n hn => ?_⟩
        cases n with
        | zero => exact hs
        | succ m =>
          have := hrest m (by simpa using hn)
          rw [show k + (m + 1) = k + 1 + m by omega]
          exact this
      · rintro ⟨hr, hall⟩
        refine ⟨hr, fun n hn => ?_⟩
        have := hall (n + 1) (by simpa using hn)
        rw [show k + 1 + n = k + (n + 1) by omega]
        exact this
    · have hc : HsaCheckStatus (answers k) = false := by
        cases hb : HsaCheckStatus (answers k)
        · rfl
        · exact absurd ((HsaCheckStatus_eq_true_iff _).mp hb) hs
      simp only [hc, Bool.not_false, if_true]
      constructor
      · rintro ⟨hr, _⟩
        cases hr
      · rintro ⟨_, hall⟩
        exact absurd (hall 0 (by simp)) hs

/-- The code object loop of `CleanUp` ends with true exactly when it started
with true and every destroy call it made succeeded. -/
theorem cleanUpCodeObjects_ret (answers : Nat → Nat) (l : List Nat) :
    ∀ (w : World) (ret : Bool) (k : Nat),
      (cleanUpCodeObjects answers w ret k l).1 = true ↔
        (ret = true ∧ ∀ n, n < l.length → answers (k + n) = HSA_STATUS_SUCCESS) := by
  induction l with
  | nil =>
    intro w ret k
    simp [cleanUpCodeObjects]
  | cons h rest ih =>
    intro w ret k
    simp only [cleanUpCodeObjects, ih]
    by_cases hs : answers k = HSA_STATUS_SUCCESS
    · have hc : HsaCheckStatus (answers k) = true := (HsaCheckStatus_eq_true_iff _).mpr hs
      simp only [hc, Bool.not_true, Bool.false_eq_true, if_false]
      constructor
      · rintro ⟨hr, hrest⟩
        refine ⟨hr, fun n hn => ?_⟩
        cases n with
        | zero => exact hs
        | succ m =>
          have := hrest m (by simpa using hn)
          rw [show k + (m + 1) = k + 1 + m by omega]
          exact this
      · rintro ⟨hr, hall⟩
        refine ⟨hr, fun n hn => ?_⟩
        have := hall (n + 1) (by simpa using hn)
        rw [show k + 1 + n = k + (n + 1) by omega]
        exact this
    · have hc : HsaCheckStatus (answers k) = false := by
        cases hb : HsaCheckStatus (answers k)
        · rfl
        · exact absurd ((HsaCheckStatus_eq_true_iff _).mp hb) hs
      simp only [hc, Bool.not_false, if_true]
      constructor
      · rintro ⟨hr, _⟩
        cases hr
      · rintro ⟨_, hall⟩
        exact absurd (hall 0 (by simp)) hs

/-- What `CleanUp` returns: true exactly when every signal destroy call,
every executable destroy call and every code object destroy call succeeds.
The answers to the buffer free calls do not enter. -/
theorem CleanUp_ret_iff (self : HSAResourceManager) (w : World) (a : CleanUpAnswers) :
    (self.CleanUp w a).ret = true ↔
      ((∀ n, n < self.m_signals.length → self.m_signals.getD n 0 ≠ 0 →
          a.hsa_signal_destroy n = HSA_STATUS_SUCCESS) ∧
       (∀ n, n < self.m_executableSet.length →
          a.hsa_executable_destroy n = HSA_STATUS_SUCCESS) ∧
       (∀ n, n < self.m_codeObjSet.length →
          a.hsa_code_object_destroy n = HSA_STATUS_SUCCESS)) := by
  unfold HSAResourceManager.CleanUp
  simp only [cleanUpCodeObjects_ret, cleanUpExecutables_ret, cleanUpSignals_ret, Nat.zero_add,
    true_and]
  constructor
  · rintro ⟨⟨h1, h2⟩, h3⟩
    exact ⟨h1, h2, h3⟩
  · rintro ⟨h1, h2, h3⟩
    exact ⟨⟨h1, h2⟩, h3⟩

/-- Claim C14, evaluated where it fails. On `trackingManager`, which holds one
allocated kernel argument buffer (at 4096), with a runtime whose
`hsa_memory_free` fails and whose other calls succeed, `CleanUp` makes the
free call, `DestroyBuffer` on that buffer returns false, and `CleanUp` returns
true. The other three kinds of release are folded into the result: a failing
signal destroy, executable destroy or code object destroy makes it false. -/
theorem CleanUp_ignores_failed_buffer_free :
    (trackingManager.CleanUp sampleWorld onlyFreeFails).ret = true ∧
    Event.hsa_memory_free 4096 ∈ (trackingManager.CleanUp sampleWorld onlyFreeFails).world.trace ∧
    (sampleBuffer.DestroyBuffer sampleWorld (onlyFreeFails.hsa_memory_free 0)).ret = false ∧
    (trackingManager.CleanUp sampleWorld onlySignalFails).ret = false ∧
    (trackingManager.CleanUp sampleWorld onlyExecutableFails).ret = false ∧
    (trackingManager.CleanUp sampleWorld onlyCodeObjectFails).ret = false := by
  decide

end AMDT
